import Mathlib

/-! # FutureCrop dashboards: series reconciliation, soil classifiers, reference lookup

A shallow embedding of the client-side logic of the price-prediction page
(`PricePredictionPage/price_app.js`), of the crop-recommendation page
(`CropRecommendationPage/crop_app.js`) and of the two authentication pages
(`auth/loginScript.js`, `auth/auth.js`).

Modelling conventions.

* JavaScript values are the constructors of `JsVal`.  Finite numbers are exact
  rationals: the rounding of IEEE doubles is not modelled, and a decimal literal
  of the source such as `0.3` is the rational `3/10`.
* An exception thrown by the source is the result `none` of the function that
  throws; a `try`/`catch` is a `match` on that result.
* What the environment supplies is a parameter: the current UTC date `today`
  (the value of `new Date().toISOString().slice(0, 10)`) and the offset `tz` of
  the page's time zone from UTC in minutes, taken as constant.
* The series response is typed as its API contract declares it: `dates` is a
  list of strings, `prices` a list of values, both optional, and so for the
  optional `predicted` member.  The prediction response is an object whose
  `recommendations` member, when present, is an array.
* A built-in whose result the model does not compute (`JSON.parse`, the text a
  template literal gives a value) is a parameter of the function that calls it.
  Timers are not modelled: a redirect set by a timer is recorded as the address
  it assigns.
-/

set_option autoImplicit false

namespace FutureCrop

/-! ## JavaScript values -/

/-- A JavaScript number: a finite value, `NaN`, or one of the two infinities. -/
inductive JsNum where
  | fin (x : ℚ)
  | nan
  | posInf
  | negInf
  deriving DecidableEq

namespace JsNum

/-- The quotient `a / b` of two finite numbers: a division by zero gives an
infinity of the sign of `a`, and `0 / 0` gives `NaN`. -/
def divFin (a b : ℚ) : JsNum :=
  if b ≠ 0 then fin (a / b)
  else if 0 < a then posInf
  else if a < 0 then negInf
  else nan

/-- The comparison `x > c` with a finite number `c`; false on `NaN`. -/
def gt (x : JsNum) (c : ℚ) : Bool :=
  match x with
  | fin v => decide (c < v)
  | nan => false
  | posInf => true
  | negInf => false

end JsNum

/-- A JavaScript value as the pages receive it from `JSON.parse`, together with
`undefined` (a missing member), the non-finite numbers, and the members an
object inherits from `Object.prototype`. -/
inductive JsVal where
  | undefined
  | null
  | bool (b : Bool)
  | num (n : JsNum)
  | str (s : String)
  | arr (xs : List JsVal)
  | obj (ps : List (String × JsVal))
  | builtin (name : String)

namespace JsVal

/-- The test `v !== undefined`. -/
def isDefined : JsVal → Bool
  | undefined => false
  | _ => true

/-- The truthiness of a value, as `||`, `!` and `if` use it. -/
def truthy : JsVal → Bool
  | undefined => false
  | null => false
  | bool b => b
  | num (JsNum.fin x) => decide (x ≠ 0)
  | num JsNum.nan => false
  | num _ => true
  | str s => decide (s ≠ "")
  | arr _ => true
  | obj _ => true
  | builtin _ => true

end JsVal

/-! ## Calendar dates, as `Date` handles them -/

/-- A proleptic Gregorian calendar date; `month` counts from 1. -/
structure CivilDate where
  year : Int
  month : Nat
  day : Nat
  deriving DecidableEq, Repr

/-- Leap years of the Gregorian calendar. -/
def isLeapYear (y : Int) : Bool :=
  decide (y % 4 = 0) && (decide (y % 100 ≠ 0) || decide (y % 400 = 0))

/-- Number of days of month `m` (1 to 12) of year `y`. -/
def daysInMonth (y : Int) (m : Nat) : Nat :=
  if m = 2 then (if isLeapYear y then 29 else 28)
  else if m = 4 ∨ m = 6 ∨ m = 9 ∨ m = 11 then 30
  else 31

/-- The day after `c`. -/
def nextDay (c : CivilDate) : CivilDate :=
  if c.day < daysInMonth c.year c.month then ⟨c.year, c.month, c.day + 1⟩
  else if c.month < 12 then ⟨c.year, c.month + 1, 1⟩
  else ⟨c.year + 1, 1, 1⟩

/-- The day before `c`. -/
def prevDay (c : CivilDate) : CivilDate :=
  if 1 < c.day then ⟨c.year, c.month, c.day - 1⟩
  else if 1 < c.month then ⟨c.year, c.month - 1, daysInMonth c.year (c.month - 1)⟩
  else ⟨c.year - 1, 12, 31⟩

/-- A point in time as a calendar date and the minute within that day
(0 to 1439). -/
structure DateTime where
  date : CivilDate
  minute : Int
  deriving DecidableEq, Repr

/-- Moving a point in time by `delta` minutes, for a shift of less than one day:
the operations `LocalTime` (`delta` is `tz`) and `UTC` (`delta` is `-tz`) of the
language standard. -/
def shiftMinutes (t : DateTime) (delta : Int) : DateTime :=
  let m := t.minute + delta
  if m < 0 then ⟨prevDay t.date, m + 1440⟩
  else if 1440 ≤ m then ⟨nextDay t.date, m - 1440⟩
  else ⟨t.date, m⟩

/-- The operation `MakeDay(year, month, date)` of the language standard, for the
arguments `setMonth(getMonth() + 1)` passes: `month` from 1 to 13, `day` from 1
to 31.  A month past December carries into the year; a day past the end of the
month carries into the following month. -/
def makeDay (y : Int) (m : Nat) (d : Nat) : CivilDate :=
  let y1 : Int := if 12 < m then y + 1 else y
  let m1 : Nat := if 12 < m then m - 12 else m
  if d ≤ daysInMonth y1 m1 then ⟨y1, m1, d⟩
  else if m1 < 12 then ⟨y1, m1 + 1, d - daysInMonth y1 m1⟩
  else ⟨y1 + 1, 1, d - daysInMonth y1 m1⟩

/-- The decimal digit `n % 10` as a character. -/
def digitChar (n : Nat) : Char := Char.ofNat (48 + n % 10)

/-- The value of a decimal digit character. -/
def digitVal (c : Char) : Nat := c.toNat - 48

/-- The first ten characters of `toISOString()` for a date: `YYYY-MM-DD` for the
years 0 to 9999, and the head of the expanded form `±YYYYYY-MM-DD` outside
them. -/
def isoDate (c : CivilDate) : String :=
  let mm : List Char := [digitChar (c.month / 10), digitChar c.month]
  let dd : List Char := [digitChar (c.day / 10), digitChar c.day]
  if 0 ≤ c.year ∧ c.year ≤ 9999 then
    let y := c.year.toNat
    String.mk ([digitChar (y / 1000), digitChar (y / 100), digitChar (y / 10), digitChar y]
      ++ '-' :: mm ++ '-' :: dd)
  else
    let y := c.year.natAbs
    String.mk (([(if c.year < 0 then '-' else '+'), digitChar (y / 100000),
      digitChar (y / 10000), digitChar (y / 1000), digitChar (y / 100), digitChar (y / 10),
      digitChar y] ++ '-' :: mm ++ '-' :: dd).take 10)

/-- The test `/^\d{4}-\d{2}-\d{2}$/` together with the three numbers it
delimits: `none` when the pattern does not match. -/
def matchIsoPattern (s : String) : Option (Nat × Nat × Nat) :=
  match s.data with
  | [a, b, c, d, s1, e, f, s2, g, h] =>
    if a.isDigit ∧ b.isDigit ∧ c.isDigit ∧ d.isDigit ∧ s1 = '-' ∧ e.isDigit ∧ f.isDigit
        ∧ s2 = '-' ∧ g.isDigit ∧ h.isDigit then
      some (digitVal a * 1000 + digitVal b * 100 + digitVal c * 10 + digitVal d,
        digitVal e * 10 + digitVal f, digitVal g * 10 + digitVal h)
    else none
  | _ => none

/-- The date `new Date(s)` denotes for a string of the shape `YYYY-MM-DD`:
midnight UTC of that day, or `none` (an invalid date) when the month or the day
does not exist, as the date-time string format of the language standard has it
(some engines accept a day past the end of its month, up to 31). -/
def parseDate (ymd : Nat × Nat × Nat) : Option DateTime :=
  let (y, m, d) := ymd
  if 1 ≤ m ∧ m ≤ 12 ∧ 1 ≤ d ∧ d ≤ daysInMonth y m then some ⟨⟨y, m, d⟩, 0⟩ else none

/-- The statement `d.setMonth(d.getMonth() + 1)` in a time zone `tz` minutes
ahead of UTC: the month is read and written in local time. -/
def setNextMonth (tz : Int) (t : DateTime) : DateTime :=
  let loc := shiftMinutes t tz
  let moved : DateTime := ⟨makeDay loc.date.year (loc.date.month + 1) loc.date.day, loc.minute⟩
  shiftMinutes moved (-tz)

/-! ## Series reconciliation (price page) -/

/-- Embedding of `nextDateFrom(labels)`, lines 753 to 766 of `price_app.js`.
The result `none` is the `RangeError` that `toISOString()` throws on an invalid
date. -/
def nextDateFrom (today : String) (tz : Int) (labels : List String) : Option String :=
  match labels.getLast? with
  | none => some today
  | some last =>
    match matchIsoPattern last with
    | some ymd =>
      match parseDate ymd with
      | some d => some (isoDate (setNextMonth tz d).date)
      | none => none
    | none => some today

/-- The `predicted` member of a series response. -/
structure PredictedSeries where
  dates : Option (List String)
  prices : Option (List JsVal)

/-- The body of a `/series_by_context` response.  A member that is missing (or
`null`) is `none`. -/
structure SeriesResponse where
  dates : Option (List String)
  prices : Option (List JsVal)
  predicted : Option PredictedSeries

/-- The module variable `chartData`: the series kept for the export. -/
structure ChartData where
  labels : List String
  historical : List JsVal
  predicted : List JsVal

/-- What the chart shows: `chart.data.labels` and the data of its two
datasets. -/
structure Chart where
  labels : List String
  historical : List JsVal
  predicted : List JsVal

/-- The part of the price page that `drawSeries` writes. -/
structure Page where
  chartData : ChartData
  chart : Chart
  chartNote : String
  toasts : List (String × Bool)

/-- The outcome of `fetch(seriesEndpoint(q))` followed by `r.json()`. -/
inductive SeriesFetch where
  | networkError
  | notOk
  | badJson
  | nullBody
  | body (hist : SeriesResponse)

/-- The value of `hist.dates || []`. -/
def histDates (hist : SeriesResponse) : List String := hist.dates.getD []

/-- The value of `hist.prices || []`. -/
def histPrices (hist : SeriesResponse) : List JsVal := hist.prices.getD []

/-- The value of `hist.predicted?.dates || []`. -/
def respPredictedDates (hist : SeriesResponse) : List String :=
  match hist.predicted with
  | some p => p.dates.getD []
  | none => []

/-- The value of `hist.predicted?.prices || []`. -/
def respPredictedPrices (hist : SeriesResponse) : List JsVal :=
  match hist.predicted with
  | some p => p.prices.getD []
  | none => []

/-- The condition of the single-point fallback, line 620:
`predictedPrices.length === 0 && predictResp?.predicted_next_price !== undefined`. -/
def fallbackApplies (hist : SeriesResponse) (nextPrice : JsVal) : Bool :=
  (respPredictedPrices hist).length == 0 && nextPrice.isDefined

/-- Lines 616 to 624 of `drawSeries`: the predicted dates and prices after the
single-point fallback.  The result `none` is an exception of `nextDateFrom`. -/
def predictedSeries (today : String) (tz : Int) (hist : SeriesResponse) (nextPrice : JsVal) :
    Option (List String × List JsVal) :=
  if fallbackApplies hist nextPrice then
    match nextDateFrom today tz (histDates hist) with
    | some nextDate => some ([nextDate], [nextPrice])
    | none => none
  else some (respPredictedDates hist, respPredictedPrices hist)

/-- Lines 626 to 636 of `drawSeries`: the chart data built from the historical
labels and prices and the predicted dates and prices. -/
def buildChartData (labels : List String) (prices : List JsVal)
    (predictedDates : List String) (predictedPrices : List JsVal) : ChartData :=
  let fullLabels := labels ++ predictedDates
  let histData := prices
  let predData := List.replicate (max 0 histData.length) JsVal.null ++ predictedPrices
  { labels := fullLabels
    historical := histData ++ List.replicate predictedPrices.length JsVal.null
    predicted := predData }

/-- The `try` block of `drawSeries`, lines 608 to 653.  `nextPrice` is
`predictResp?.predicted_next_price`.  The result `none` is an exception.  Every
statement that can throw comes before the first write to the page: the chart
library and the page elements written after line 636 are taken not to throw. -/
def drawSeriesTry (today : String) (tz : Int) (r : SeriesFetch) (nextPrice : JsVal)
    (pg : Page) : Option Page :=
  match r with
  | SeriesFetch.body hist =>
    match predictedSeries today tz hist nextPrice with
    | some (predictedDates, predictedPrices) =>
      let cd := buildChartData (histDates hist) (histPrices hist) predictedDates predictedPrices
      some { pg with
        chartData := cd
        chart := ⟨cd.labels, cd.historical, cd.predicted⟩
        chartNote :=
          if (histDates hist).length == 0 then
            "⚠️ Limited historical data - showing prediction only."
          else pg.chartNote }
    | none => none
  | _ => none

/-- Embedding of `drawSeries(q, predictResp)`, lines 607 to 670: the `try`
block, and the fallback rendering of the `catch` block. -/
def drawSeries (today : String) (tz : Int) (r : SeriesFetch) (nextPrice : JsVal)
    (pg : Page) : Page :=
  match drawSeriesTry today tz r nextPrice pg with
  | some pg1 => pg1
  | none =>
    if nextPrice.isDefined then
      { pg with
        chart := ⟨[today], [JsVal.null], [nextPrice]⟩
        chartNote := "⚠️ Historical data unavailable." }
    else
      { pg with toasts := pg.toasts ++ [("Could not render chart data.", true)] }

/-! ## Soil classifiers (recommendation page) -/

/-- A status text with the CSS class shown next to it. -/
structure Analysis where
  status : String
  className : String
  deriving DecidableEq, Repr

/-- Embedding of `analyzeNPK(n, p, k)`, lines 327 to 338 of `crop_app.js`, on
finite numbers. -/
def analyzeNPK (n p k : ℚ) : Analysis :=
  let total := n + p + k
  let nRatio := JsNum.divFin n total
  if nRatio.gt (1 / 2) then ⟨"High Nitrogen", "good"⟩
  else if nRatio.gt (3 / 10) then ⟨"Balanced", "good"⟩
  else ⟨"N Deficient", "moderate"⟩

/-- Embedding of `analyzePH(ph)`, lines 341 to 349 of `crop_app.js`, on finite
numbers. -/
def analyzePH (ph : ℚ) : Analysis :=
  if 6 ≤ ph ∧ ph ≤ 15 / 2 then ⟨"Optimal", "good"⟩
  else if (11 / 2 ≤ ph ∧ ph < 6) ∨ (15 / 2 < ph ∧ ph ≤ 8) then ⟨"Acceptable", "moderate"⟩
  else ⟨"Needs Adjustment", "poor"⟩

/-- A climate label with its status text and CSS class. -/
structure ClimateAnalysis where
  label : String
  status : String
  className : String
  deriving DecidableEq, Repr

/-- Embedding of `analyzeClimate(temp, humidity, rainfall)`, lines 352 to 376 of
`crop_app.js`, on finite numbers. -/
def analyzeClimate (temp humidity rainfall : ℚ) : ClimateAnalysis :=
  let tempScore : Nat :=
    if 15 ≤ temp ∧ temp ≤ 35 then 33 else if 10 ≤ temp ∧ temp ≤ 40 then 20 else 0
  let humidityScore : Nat :=
    if 40 ≤ humidity ∧ humidity ≤ 80 then 33
    else if 30 ≤ humidity ∧ humidity ≤ 90 then 20 else 0
  let rainfallScore : Nat :=
    if 50 ≤ rainfall ∧ rainfall ≤ 250 then 34
    else if 30 ≤ rainfall ∧ rainfall ≤ 300 then 20 else 0
  let score := tempScore + humidityScore + rainfallScore
  if 80 ≤ score then ⟨"Excellent", "Highly Suitable", "good"⟩
  else if 60 ≤ score then ⟨"Good", "Suitable", "good"⟩
  else if 40 ≤ score then ⟨"Fair", "Moderate", "moderate"⟩
  else ⟨"Challenging", "Difficult", "poor"⟩

/-- The text of `x.toFixed(f)` for a finite `x` below `10^21` in absolute value
(beyond it the built-in switches to exponent form): the sign, then the nearest
multiple of `10^(-f)` to the absolute value, a tie going up, with `f` digits
after the point. -/
def toFixed (x : ℚ) (f : Nat) : String :=
  let n : Nat := (⌊|x| * 10 ^ f + 1 / 2⌋).toNat
  let digits : List Char := (toString n).data
  let padded : List Char := List.replicate (f + 1 - digits.length) '0' ++ digits
  let whole : List Char := padded.take (padded.length - f)
  let frac : List Char := padded.drop (padded.length - f)
  String.mk ((if x < 0 then ['-'] else []) ++ whole ++ (if f = 0 then [] else '.' :: frac))

/-- The seven numeric fields of the recommendation form. -/
structure SoilInputs where
  N : ℚ
  P : ℚ
  K : ℚ
  temperature : ℚ
  humidity : ℚ
  ph : ℚ
  rainfall : ℚ

/-- The texts and classes `displaySoilAnalysis` writes, by element id. -/
structure SoilAnalysisView where
  npkRatio : String
  npkStatus : String
  npkStatusClass : String
  phAnalysis : String
  phStatus : String
  phStatusClass : String
  climateAnalysis : String
  climateStatus : String
  climateStatusClass : String
  deriving DecidableEq, Repr

/-- Embedding of `displaySoilAnalysis(inputs)`, lines 302 to 324 of
`crop_app.js`. -/
def displaySoilAnalysis (inputs : SoilInputs) : SoilAnalysisView :=
  let npkRatio := toFixed inputs.N 0 ++ ":" ++ toFixed inputs.P 0 ++ ":" ++ toFixed inputs.K 0
  let npkBalance := analyzeNPK inputs.N inputs.P inputs.K
  let phAnalysis := analyzePH inputs.ph
  let climateScore := analyzeClimate inputs.temperature inputs.humidity inputs.rainfall
  { npkRatio := npkRatio
    npkStatus := npkBalance.status
    npkStatusClass := "analysis-status " ++ npkBalance.className
    phAnalysis := toFixed inputs.ph 1
    phStatus := phAnalysis.status
    phStatusClass := "analysis-status " ++ phAnalysis.className
    climateAnalysis := climateScore.label
    climateStatus := climateScore.status
    climateStatusClass := "analysis-status " ++ climateScore.className }

/-! ## Reference lookup (both pages) -/

/-- The built-in `toLowerCase()`, on ASCII text: the letters `A` to `Z` are
mapped to `a` to `z`, every other character is kept. -/
def toLowerCase (s : String) : String := String.mk (s.data.map Char.toLower)

/-- The built-in `toUpperCase()`, on ASCII text. -/
def toUpperCase (s : String) : String := String.mk (s.data.map Char.toUpper)

/-- The expression `s.charAt(0).toUpperCase() + s.slice(1)`. -/
def capitalize (s : String) : String :=
  toUpperCase (String.mk (s.data.take 1)) ++ String.mk (s.data.drop 1)

/-- The crop database: the own properties of the object parsed from
`crops.json`, in enumeration order. -/
abbrev CropDatabase := List (String × JsVal)

/-- The names every plain object inherits from `Object.prototype`. -/
def objectPrototypeNames : List String :=
  ["constructor", "hasOwnProperty", "isPrototypeOf", "propertyIsEnumerable",
   "toLocaleString", "toString", "valueOf", "__defineGetter__", "__defineSetter__",
   "__lookupGetter__", "__lookupSetter__", "__proto__"]

/-- The property read `o[key]` on a plain object with own properties `ps`: the
own property if there is one, otherwise an inherited member, otherwise
`undefined`. -/
def getProp (ps : List (String × JsVal)) (key : String) : JsVal :=
  match ps.lookup key with
  | some v => v
  | none => if key ∈ objectPrototypeNames then JsVal.builtin key else JsVal.undefined

/-- The value of `c.name.toLowerCase()`; `none` is the `TypeError` raised when
`c` is `null` or `undefined`, or when `c.name` is not a string. -/
def lowerName (c : JsVal) : Option String :=
  match c with
  | JsVal.obj ps =>
    match getProp ps "name" with
    | JsVal.str n => some (toLowerCase n)
    | _ => none
  | _ => none

/-- The call `values.find(c => c.name.toLowerCase() === lower)`: the first value
whose lower-cased name is `lower`, `undefined` when there is none, and `none`
when the callback throws before a match. -/
def findByName (lower : String) : List JsVal → Option JsVal
  | [] => some JsVal.undefined
  | c :: rest =>
    match lowerName c with
    | none => none
    | some n => if n = lower then some c else findByName lower rest

/-- The chain `db[label] || db[capitalised label] || Object.values(db).find(...)`
shared by `displayResults` (lines 212 to 214 of `crop_app.js`) and
`updateCropInfo` (lines 221 to 225 of `price_app.js`): the first truthy operand,
or the value of the last one.  The result `none` is an exception. -/
def lookupChain (db : CropDatabase) (label : String) : Option JsVal :=
  let exact := getProp db label
  if exact.truthy then some exact
  else
    let capital := getProp db (capitalize label)
    if capital.truthy then some capital
    else findByName (toLowerCase label) (db.map Prod.snd)

/-- The placeholder entry of `displayResults`, line 215. -/
def placeholderEntry (label : String) : JsVal :=
  JsVal.obj [("name", JsVal.str label), ("icon", JsVal.str "🌱"),
    ("desc", JsVal.str "Details unavailable")]

/-- The value of `cropInfo` in `displayResults`, lines 211 to 215 of
`crop_app.js`, for a string `topCrop`. -/
def cropInfoFor (db : CropDatabase) (topCrop : String) : Option JsVal :=
  match lookupChain db topCrop with
  | none => none
  | some v => if v.truthy then some v else some (placeholderEntry topCrop)

/-- The member read `v.key` on a value that is neither `null` nor `undefined`,
for a key that strings, arrays and numbers have no member of (`name`, `desc`,
`icon`, `crop`, `confidence`): an own or inherited property of an object, the
function name of an inherited method, and `undefined` on anything else. -/
def memberOf (v : JsVal) (key : String) : JsVal :=
  match v with
  | JsVal.obj ps => getProp ps key
  | JsVal.builtin f =>
    if key = "name" then
      (if f = "constructor" then JsVal.str "Object"
       else if f = "__proto__" then JsVal.undefined
       else JsVal.str f)
    else JsVal.undefined
  | _ => JsVal.undefined

/-- The lookup of `displayTopRecommendations`, lines 261 to 265 of
`crop_app.js`: `cropDatabase[rec.crop.toLowerCase()]`, or a placeholder. -/
def alternativeInfo (db : CropDatabase) (crop : String) : JsVal :=
  let info := getProp db (toLowerCase crop)
  if info.truthy then info
  else JsVal.obj [("name", JsVal.str crop), ("icon", JsVal.str "🌱")]

/-! ## Sample data -/

/-- The price page before any prediction: `chartData` and the chart are
empty. -/
def initialPage : Page :=
  { chartData := ⟨[], [], []⟩, chart := ⟨[], [], []⟩, chartNote := "", toasts := [] }

/-- A series response with two dates, one price and no predicted series. -/
def unevenSeries : SeriesResponse :=
  { dates := some ["2024-01-15", "2024-02-15"]
    prices := some [JsVal.num (JsNum.fin 100)]
    predicted := none }

/-- A series response with two dated prices and no predicted series. -/
def evenSeries : SeriesResponse :=
  { dates := some ["2024-01-15", "2024-02-15"]
    prices := some [JsVal.num (JsNum.fin 100), JsVal.num (JsNum.fin 110)]
    predicted := none }

/-- A database whose entries are filed under their lower-cased display names. -/
def grainDatabase : CropDatabase :=
  [("rice", JsVal.obj [("name", JsVal.str "Rice"), ("icon", JsVal.str "🌾"),
      ("desc", JsVal.str "A staple cereal of wet fields.")]),
   ("wheat", JsVal.obj [("name", JsVal.str "Wheat"), ("icon", JsVal.str "🌾"),
      ("desc", JsVal.str "A cool-season cereal.")])]

/-! ## The lookup order, as the specification words it -/

/-- Stated from the specification, not from the code: the entry under the exact
key if present, otherwise the entry under the label with its first letter
upper-cased if present, otherwise the first entry whose display name equals the
label ignoring case, otherwise the placeholder entry. -/
def lookupBySpec (db : CropDatabase) (label : String) : JsVal :=
  match db.lookup label with
  | some e => e
  | none =>
    match db.lookup (capitalize label) with
    | some e => e
    | none =>
      match (db.map Prod.snd).find? (fun c => decide (lowerName c = some (toLowerCase label))) with
      | some e => e
      | none => placeholderEntry label

/-- A database whose only entry has no display name. -/
def namelessDatabase : CropDatabase :=
  [("rice", JsVal.obj [("icon", JsVal.str "🌾"), ("desc", JsVal.str "A staple cereal.")])]

/-! ## Loading the reference document (both pages) -/

/-- The outcome of fetching `crops.json`: the request fails, or a response
arrives with its `ok` flag and the value `response.json()` resolves to (`none`
when the body is not valid JSON). -/
inductive DocFetch where
  | networkError
  | response (ok : Bool) (body : Option JsVal)

/-- The operator `typeof`. -/
def typeOf : JsVal → String
  | JsVal.undefined => "undefined"
  | JsVal.null => "object"
  | JsVal.bool _ => "boolean"
  | JsVal.num _ => "number"
  | JsVal.str _ => "string"
  | JsVal.arr _ => "object"
  | JsVal.obj _ => "object"
  | JsVal.builtin name => if name = "__proto__" then "object" else "function"

namespace CropPage

/-- Embedding of `loadCropDatabase()`, lines 181 to 190 of `crop_app.js`: the
value of `cropDatabase` afterwards.  The body is assigned as it comes; the
`console.log` that follows calls `Object.keys` on it, which throws on `null` and
`undefined`, and the `catch` block then assigns the empty object. -/
def loadCropDatabase (r : DocFetch) : JsVal :=
  match r with
  | DocFetch.networkError => JsVal.obj []
  | DocFetch.response _ none => JsVal.obj []
  | DocFetch.response _ (some JsVal.null) => JsVal.obj []
  | DocFetch.response _ (some JsVal.undefined) => JsVal.obj []
  | DocFetch.response _ (some data) => data

end CropPage

namespace PricePage

/-- Embedding of `loadCropDatabase()`, lines 95 to 117 of `price_app.js`: the
value of `cropDatabase` afterwards. -/
def loadCropDatabase (r : DocFetch) : JsVal :=
  match r with
  | DocFetch.networkError => JsVal.obj []
  | DocFetch.response ok body =>
    if !ok then JsVal.obj []
    else
      match body with
      | none => JsVal.obj []
      | some data =>
        if !data.truthy || typeOf data ≠ "object" then JsVal.obj []
        else data

end PricePage

/-! ## The API wrapper (price page) -/

/-- The outcome of the `fetch` of `apiPost` followed by `r.text()`. -/
inductive PostFetch where
  | networkError
  | response (ok : Bool) (txt : String)

/-- What `apiPost` throws: the rejection of `fetch` itself, or the `Error` it
builds, given by the argument of `new Error(...)`. -/
inductive ApiFailure where
  | network
  | thrown (message : JsVal)

/-- The read `data?.detail`. -/
def detailOf (data : JsVal) : JsVal :=
  match data with
  | JsVal.obj ps => getProp ps "detail"
  | _ => JsVal.undefined

/-- Embedding of `apiPost(path, body)`, lines 77 to 92 of `price_app.js`.  The
built-in `JSON.parse` is the parameter `jsonParse`, `none` being its
`SyntaxError`. -/
def apiPost (jsonParse : String → Option JsVal) (r : PostFetch) : Except ApiFailure JsVal :=
  match r with
  | PostFetch.networkError => Except.error ApiFailure.network
  | PostFetch.response ok txt =>
    let data : JsVal :=
      match jsonParse txt with
      | some v => v
      | none => JsVal.obj [("raw", JsVal.str txt)]
    if !ok then
      Except.error (ApiFailure.thrown
        (if (detailOf data).truthy then detailOf data
         else if (JsVal.str txt).truthy then JsVal.str txt
         else JsVal.str "Request failed"))
    else Except.ok data

/-- A stand-in for `JSON.parse` that knows one error body. -/
def sampleJsonParse (txt : String) : Option JsVal :=
  if txt = "\x7b\"detail\":\"No model for this crop\"\x7d" then
    some (JsVal.obj [("detail", JsVal.str "No model for this crop")])
  else none

/-! ## Authentication pages -/

/-- The `length` of a string as the language counts it: in UTF-16 code units,
two for a character outside the basic plane. -/
def jsLength (s : String) : Nat :=
  (s.data.map (fun c => if c.toNat < 65536 then 1 else 2)).sum

/-- A call to the identity provider. -/
inductive ProviderCall where
  | signInWithEmailAndPassword (email password : String)
  | createUserWithEmailAndPassword (email password : String)
  | updateProfile (displayName : String)
  | signInWithPopup
  deriving DecidableEq, Repr

/-- How a call to the identity provider settles: it resolves, or it rejects with
an error whose `code` member is the given value. -/
inductive ProviderResult where
  | resolved
  | rejected (code : JsVal)

/-- The part of an authentication page its handlers write.  Timers are not
modelled: `location` is the address the handler's two-second timer assigns to
`window.location.href`, and `message` is the message shown until its timer
hides it. -/
structure AuthPage where
  isSubmitting : Bool
  message : Option (String × String)
  location : Option String
  calls : List ProviderCall
  submitLoading : Bool
  googleLoading : Bool
  loadingAnimation : Bool
  deriving DecidableEq, Repr

namespace LoginHandler

/-- Embedding of `LoginHandler.getErrorMessage(code)`, lines 183 to 204 of
`loginScript.js`. -/
def getErrorMessage (code : JsVal) : String :=
  match code with
  | JsVal.str s =>
    if s = "auth/user-not-found" then "No account found with this email."
    else if s = "auth/wrong-password" then "Incorrect password."
    else if s = "auth/invalid-email" then "Invalid email address."
    else if s = "auth/user-disabled" then "This account has been disabled."
    else if s = "auth/too-many-requests" then "Too many failed attempts. Please try again later."
    else if s = "auth/popup-closed-by-user" then "Sign-in popup was closed."
    else if s = "auth/cancelled-popup-request" then "Sign-in was cancelled."
    else if s = "auth/invalid-credential" then "Invalid email or password."
    else "An error occurred. Please try again."
  | _ => "An error occurred. Please try again."

/-- Embedding of `LoginHandler.handleSubmit(e)`, lines 88 to 120 of
`loginScript.js`; `result` is how `signInWithEmailAndPassword` settles. -/
def handleSubmit (pg : AuthPage) (email password : String) (result : ProviderResult) :
    AuthPage :=
  if pg.isSubmitting then pg
  else if email = "" ∨ password = "" then
    { pg with message := some ("Please fill in all fields", "error") }
  else
    let sent := { pg with
      isSubmitting := true
      submitLoading := true
      calls := pg.calls ++ [ProviderCall.signInWithEmailAndPassword email password] }
    match result with
    | ProviderResult.resolved =>
      { sent with
        message := some ("Login successful!", "success")
        loadingAnimation := true
        location := some "../index.html" }
    | ProviderResult.rejected code =>
      { sent with
        message := some (getErrorMessage code, "error")
        isSubmitting := false
        submitLoading := false }

end LoginHandler

namespace SignupForm

/-- Embedding of `SignupForm.getErrorMessage(code)`, lines 175 to 188 of
`auth.js`. -/
def getErrorMessage (code : JsVal) : String :=
  match code with
  | JsVal.str s =>
    if s = "auth/email-already-in-use" then "An account with this email already exists."
    else if s = "auth/invalid-email" then "Invalid email address."
    else if s = "auth/weak-password" then "Password is too weak."
    else if s = "auth/operation-not-allowed" then "Operation not allowed."
    else "An error occurred. Please try again."
  | _ => "An error occurred. Please try again."

/-- Embedding of `SignupForm.handleSubmit(e)`, lines 90 to 133 of `auth.js`;
`created` is how `createUserWithEmailAndPassword` settles and `updated` how
`updateProfile` settles when it is reached. -/
def handleSubmit (pg : AuthPage) (name email password confirmPassword : String)
    (created updated : ProviderResult) : AuthPage :=
  if pg.isSubmitting then pg
  else if name = "" ∨ email = "" ∨ password = "" ∨ confirmPassword = "" then
    { pg with message := some ("Please fill in all fields", "error") }
  else if password ≠ confirmPassword then
    { pg with message := some ("Passwords do not match", "error") }
  else if jsLength password < 6 then
    { pg with message := some ("Password should be at least 6 characters", "error") }
  else
    let sent := { pg with
      isSubmitting := true
      submitLoading := true
      calls := pg.calls ++ [ProviderCall.createUserWithEmailAndPassword email password] }
    match created with
    | ProviderResult.rejected code =>
      { sent with
        message := some (getErrorMessage code, "error")
        isSubmitting := false
        submitLoading := false }
    | ProviderResult.resolved =>
      let named := { sent with calls := sent.calls ++ [ProviderCall.updateProfile name] }
      match updated with
      | ProviderResult.rejected code =>
        { named with
          message := some (getErrorMessage code, "error")
          isSubmitting := false
          submitLoading := false }
      | ProviderResult.resolved =>
        { named with
          message := some ("Account created successfully!", "success")
          location := some "login.html"
          isSubmitting := false
          submitLoading := false }

end SignupForm

/-- The error codes listed on the login page. -/
def loginCodes : List String :=
  ["auth/user-not-found", "auth/wrong-password", "auth/invalid-email", "auth/user-disabled",
   "auth/too-many-requests", "auth/popup-closed-by-user", "auth/cancelled-popup-request",
   "auth/invalid-credential"]

/-- The error codes listed on the sign-up page. -/
def signupCodes : List String :=
  ["auth/email-already-in-use", "auth/invalid-email", "auth/weak-password",
   "auth/operation-not-allowed"]

/-- An authentication page as it is loaded: nothing submitted, nothing shown. -/
def freshAuthPage : AuthPage :=
  { isSubmitting := false, message := none, location := none, calls := [],
    submitLoading := false, googleLoading := false, loadingAnimation := false }

/-! ## The CSV export (price page) -/

/-- The text of one value field of the export, `track[i] || ""` inside the row
template; `text` is the text a template literal gives a value. -/
def csvField (text : JsVal → String) (track : List JsVal) (i : Nat) : String :=
  let v := track.getD i JsVal.undefined
  if v.truthy then text v else ""

namespace PricePage

/-- Embedding of `handleExport()`, lines 412 to 435 of `price_app.js`: the CSV
text that follows the `data:` prefix of the download address, before
`encodeURI`; `none` when nothing is exported. -/
def handleExport (text : JsVal → String) (chartData : ChartData) : Option String :=
  if chartData.labels.length = 0 then none
  else
    some ("Date,Historical Price,Predicted Price\n" ++
      "\n".intercalate (chartData.labels.enum.map (fun p =>
        p.2 ++ "," ++ csvField text chartData.historical p.1 ++ ","
          ++ csvField text chartData.predicted p.1)))

end PricePage

/-- A series response with one dated price, the price being zero. -/
def zeroPriceSeries : SeriesResponse :=
  { dates := some ["2024-01-15"]
    prices := some [JsVal.num (JsNum.fin 0)]
    predicted := none }

/-! ## The recommendation form -/

namespace CropPage

end CropPage

/-- The body of a `/predict` response, an object.  Its `recommendations` member
is `none` when missing or falsy and is otherwise an array, of any values; the
other members are `undefined` when missing. -/
structure PredictionData where
  recommendations : Option (List JsVal)
  prediction : JsVal
  crop : JsVal
  recommended_crop : JsVal
  confidence : JsVal

/-- The member read `v.key`, which throws a `TypeError` (`none`) on `null` and
on `undefined`. -/
def readMember (v : JsVal) (key : String) : Option JsVal :=
  match v with
  | JsVal.undefined => none
  | JsVal.null => none
  | _ => some (memberOf v key)

/-- Lines 200 to 208 of `displayResults`: the value of `topCrop`.  The result
`none` is the `TypeError` of reading `crop` from a first recommendation that is
`null`. -/
def topCropOf (data : PredictionData) : Option JsVal :=
  match data.recommendations with
  | some (first :: _) => readMember first "crop"
  | _ =>
    some (if data.prediction.truthy then data.prediction
      else if data.crop.truthy then data.crop
      else if data.recommended_crop.truthy then data.recommended_crop
      else JsVal.str "unknown")

/-- One chip of the list of alternatives: icon, name, and the confidence text
when there is one. -/
structure Chip where
  icon : JsVal
  name : JsVal
  confidence : Option String

/-- The call `v.toFixed(1)`: the text for a number, a `TypeError` (`none`) for
anything else. -/
def toFixedOne (v : JsVal) : Option String :=
  match v with
  | JsVal.num (JsNum.fin x) => some (toFixed x 1)
  | JsVal.num JsNum.nan => some "NaN"
  | JsVal.num JsNum.posInf => some "Infinity"
  | JsVal.num JsNum.negInf => some "-Infinity"
  | _ => none

/-- Applying to each element in turn a function that may throw: the results, or
`none` as soon as one call throws. -/
def mapThrowing {α β : Type} (f : α → Option β) : List α → Option (List β)
  | [] => some []
  | a :: rest =>
    match f a with
    | none => none
    | some b =>
      match mapThrowing f rest with
      | none => none
      | some bs => some (b :: bs)

/-- The callback of `displayTopRecommendations`, lines 260 to 273 of
`crop_app.js`: the chip of one recommendation.  It throws when the
recommendation is `null`, when its `crop` is not a string, and when its
`confidence` is not a number. -/
def recommendationChip (db : CropDatabase) (rec : JsVal) : Option Chip :=
  match readMember rec "crop" with
  | some (JsVal.str crop) =>
    let info := alternativeInfo db crop
    match toFixedOne (memberOf rec "confidence") with
    | some text => some ⟨memberOf info "icon", memberOf info "name", some text⟩
    | none => none
  | _ => none

/-- Embedding of `displayTopRecommendations(recommendations)`, lines 254 to 280
of `crop_app.js`: the chips written to the list of alternatives, `some none`
when the list is left as it was, `none` when the function throws. -/
def displayTopRecommendations (db : CropDatabase) (recommendations : List JsVal) :
    Option (Option (List Chip)) :=
  let alternatives := (recommendations.drop 1).take 2
  if alternatives.length > 0 then
    match mapThrowing (recommendationChip db) alternatives with
    | some chips => some (some chips)
    | none => none
  else some none

/-- The callback of `generateAlternatives`, lines 391 to 398 of `crop_app.js`:
the chip of one key of the database.  It throws when the entry is `null`. -/
def alternativeChip (db : CropDatabase) (crop : String) : Option Chip :=
  match readMember (getProp db crop) "icon" with
  | some icon => some ⟨icon, memberOf (getProp db crop) "name", none⟩
  | none => none

/-- Embedding of `generateAlternatives(mainCrop, inputs)`, lines 379 to 403 of
`crop_app.js`: the chips written to the list of alternatives, `some none` when
the list is left as it was, `none` when the function throws. -/
def generateAlternatives (db : CropDatabase) (mainCrop : String) :
    Option (Option (List Chip)) :=
  let alternatives := ((db.map Prod.fst).filter (fun crop => decide (crop ≠ mainCrop))).take 5
  if alternatives.length > 0 then
    match mapThrowing (alternativeChip db) alternatives with
    | some chips => some (some chips)
    | none => none
  else some none

/-- What `displayResults` shows: the label chosen, the reference entry found for
it, the three texts of the main display, the soil analysis and the list of
alternatives.  The confidence texts, the insights and the echo of the inputs
are not recorded; computing them throws nothing. -/
structure ResultView where
  topCrop : String
  cropInfo : JsVal
  cropIcon : JsVal
  recommendedCrop : JsVal
  cropDescription : JsVal
  soil : SoilAnalysisView
  alternatives : Option (List Chip)

/-- Embedding of `displayResults(data, inputs)`, lines 194 to 251 of
`crop_app.js`.  The result `none` is a `TypeError`: from a first recommendation
that is `null`, from a `topCrop` that is not a string (`toLowerCase`), from the
lookup, or from the list of alternatives. -/
def displayResults (db : CropDatabase) (data : PredictionData) (inputs : SoilInputs) :
    Option ResultView :=
  match topCropOf data with
  | some (JsVal.str topCrop) =>
    let cropName := toLowerCase topCrop
    match cropInfoFor db topCrop with
    | some cropInfo =>
      let shown :=
        match data.recommendations with
        | some recommendations =>
          if recommendations.length > 1 then displayTopRecommendations db recommendations
          else generateAlternatives db cropName
        | none => generateAlternatives db cropName
      match shown with
      | some alternatives =>
        some { topCrop := topCrop
               cropInfo := cropInfo
               cropIcon := memberOf cropInfo "icon"
               recommendedCrop := memberOf cropInfo "name"
               cropDescription := memberOf cropInfo "desc"
               soil := displaySoilAnalysis inputs
               alternatives := alternatives }
      | none => none
    | none => none
  | _ => none

/-- Stated from the specification, not from the code: the crop label of a
response is the first recommendation's crop when the list of recommendations is
not empty, otherwise the first present of `prediction`, `crop` and
`recommended_crop`, otherwise "unknown". -/
def labelBySpec (data : PredictionData) : JsVal :=
  match data.recommendations with
  | some (first :: _) => memberOf first "crop"
  | _ =>
    if data.prediction.truthy then data.prediction
    else if data.crop.truthy then data.crop
    else if data.recommended_crop.truthy then data.recommended_crop
    else JsVal.str "unknown"

/-- Whether a value is a string. -/
def isString : JsVal → Bool
  | JsVal.str _ => true
  | _ => false

/-- Whether a value is a number. -/
def isNumber : JsVal → Bool
  | JsVal.num _ => true
  | _ => false

/-- A response of the shape the page expects: the first recommendation holds a
string `crop`, the second and third hold a string `crop` and a numeric
`confidence`, and without recommendations each of `prediction`, `crop` and
`recommended_crop` is a string when present. -/
def wellShaped (data : PredictionData) : Bool :=
  match data.recommendations with
  | some (first :: rest) =>
    isString (memberOf first "crop")
      && (rest.take 2).all (fun r =>
        isString (memberOf r "crop") && isNumber (memberOf r "confidence"))
  | _ =>
    (!data.prediction.truthy || isString data.prediction)
      && (!data.crop.truthy || isString data.crop)
      && (!data.recommended_crop.truthy || isString data.recommended_crop)

/-- The sample inputs of the rice preset. -/
def riceInputs : SoilInputs := ⟨90, 42, 43, 25, 82, 13 / 2, 202⟩

/-- A response with three ranked recommendations. -/
def rankedResponse : PredictionData :=
  { recommendations := some [
      JsVal.obj [("crop", JsVal.str "rice"), ("confidence", JsVal.num (JsNum.fin 91))],
      JsVal.obj [("crop", JsVal.str "wheat"), ("confidence", JsVal.num (JsNum.fin 6))],
      JsVal.obj [("crop", JsVal.str "maize"), ("confidence", JsVal.num (JsNum.fin 3))]]
    prediction := JsVal.undefined
    crop := JsVal.undefined
    recommended_crop := JsVal.undefined
    confidence := JsVal.undefined }

/-- A response whose recommendation names its crop under `label`. -/
def mislabelledResponse : PredictionData :=
  { recommendations := some [
      JsVal.obj [("label", JsVal.str "rice"), ("confidence", JsVal.num (JsNum.fin 91))]]
    prediction := JsVal.undefined
    crop := JsVal.undefined
    recommended_crop := JsVal.undefined
    confidence := JsVal.undefined }

/-- A response in the old format whose `prediction` is a class index. -/
def indexResponse : PredictionData :=
  { recommendations := none
    prediction := JsVal.num (JsNum.fin 7)
    crop := JsVal.undefined
    recommended_crop := JsVal.undefined
    confidence := JsVal.undefined }

/-- A response without any crop label. -/
def blankResponse : PredictionData :=
  { recommendations := none
    prediction := JsVal.undefined
    crop := JsVal.undefined
    recommended_crop := JsVal.undefined
    confidence := JsVal.undefined }

/-! ## Arithmetic on numbers that may not be finite -/

namespace JsNum

/-- The comparison `x < c` with a finite number `c`; false on `NaN`. -/
def lt (x : JsNum) (c : ℚ) : Bool :=
  match x with
  | fin v => decide (v < c)
  | nan => false
  | posInf => false
  | negInf => true

/-- The comparison `x >= c` with a finite number `c`; false on `NaN`. -/
def ge (x : JsNum) (c : ℚ) : Bool :=
  match x with
  | fin v => decide (c ≤ v)
  | nan => false
  | posInf => true
  | negInf => false

/-- The product `x * c` with a positive finite number `c`. -/
def mulPos (x : JsNum) (c : ℚ) : JsNum :=
  match x with
  | fin v => fin (v * c)
  | other => other

/-- The difference `x - y`. -/
def sub (x y : JsNum) : JsNum :=
  match x, y with
  | nan, _ => nan
  | _, nan => nan
  | fin a, fin b => fin (a - b)
  | fin _, posInf => negInf
  | fin _, negInf => posInf
  | posInf, posInf => nan
  | posInf, _ => posInf
  | negInf, negInf => nan
  | negInf, _ => negInf

/-- The quotient `x / y`, a zero divisor being the positive zero. -/
def div (x y : JsNum) : JsNum :=
  match x, y with
  | nan, _ => nan
  | _, nan => nan
  | fin a, fin b => divFin a b
  | fin _, _ => fin 0
  | posInf, fin b => if b < 0 then negInf else posInf
  | negInf, fin b => if b < 0 then posInf else negInf
  | _, _ => nan

/-- The call `Math.round(x)`: the nearest integer, a tie going up. -/
def round (x : JsNum) : JsNum :=
  match x with
  | fin v => fin (⌊v + 1 / 2⌋ : Int)
  | other => other

end JsNum

/-! ## The fallback confidence (recommendation page) -/

/-- The call `xs.reduce((a, b) => a + b, 0)`. -/
def sumPrices (xs : List ℚ) : ℚ := xs.foldl (fun a b => a + b) 0

/-- The mean of `calculateStatistics`, line 724. -/
def meanPrice (prices : List ℚ) : ℚ := sumPrices prices / prices.length

/-- The variance of `calculateStatistics`, line 725. -/
def variancePrice (prices : List ℚ) : ℚ :=
  prices.foldl (fun sum val => sum + (val - meanPrice prices) ^ 2) 0 / prices.length

/-- The test `(Math.sqrt(variance) / mean) * 100 < c` for a positive bound `c`
and a variance that is not negative, the square root being exact: false when
the mean is zero (the quotient is `NaN` or infinite), true when the mean is
negative, and decided on the squares otherwise. -/
def cvBelow (variance mean c : ℚ) : Bool :=
  if mean = 0 then false
  else if mean < 0 then true
  else decide (variance * 10000 < (c * mean) ^ 2)

/-- The first half of the prices, line 732. -/
def firstHalf (prices : List ℚ) : List ℚ := prices.take (prices.length / 2)

/-- The second half of the prices, line 733. -/
def secondHalf (prices : List ℚ) : List ℚ := prices.drop (prices.length / 2)

/-- The average of the first half, line 734. -/
def avgFirst (prices : List ℚ) : ℚ := sumPrices (firstHalf prices) / (firstHalf prices).length

/-- The average of the second half, line 735. -/
def avgSecond (prices : List ℚ) : ℚ :=
  sumPrices (secondHalf prices) / (secondHalf prices).length

/-- The value of `trendPct`, line 736. -/
def trendPct (prices : List ℚ) : JsNum :=
  (JsNum.divFin (avgSecond prices - avgFirst prices) (avgFirst prices)).mulPos 100

/-- The sum of the absolute changes between neighbouring prices, lines 742 to
745. -/
def totalChange (prices : List ℚ) : ℚ :=
  ((prices.zip prices.tail).map (fun p => |p.2 - p.1|)).foldl (fun a b => a + b) 0

/-- The texts `calculateStatistics` writes. -/
structure Statistics where
  volatility : String
  trend : String
  trendColor : String
  avgChange : String
  deriving DecidableEq, Repr

/-- Embedding of `calculateStatistics(prices, predicted)`, lines 720 to 750 of
`price_app.js`, on finite prices; `none` when the function returns at once. -/
def calculateStatistics (prices : List ℚ) : Option Statistics :=
  if prices.length < 2 then none
  else
    some {
      volatility :=
        if cvBelow (variancePrice prices) (meanPrice prices) 10 then "Low"
        else if cvBelow (variancePrice prices) (meanPrice prices) 20 then "Moderate"
        else "High"
      trend :=
        if (trendPct prices).gt 5 then "📈 Upward"
        else if (trendPct prices).lt (-5) then "📉 Downward"
        else "➡️ Stable"
      trendColor :=
        if (trendPct prices).gt 5 then "#7ee7b1"
        else if (trendPct prices).lt (-5) then "#ffb3b3"
        else "#95a0a0"
      avgChange := "₹" ++ toFixed (totalChange prices / ((prices.length : ℚ) - 1)) 0 }

/-! ## Market insights (price page) -/

/-- The conversion of a value to a number, as the arithmetic operators make it:
`null` is 0, `undefined` is `NaN`, a boolean is 0 or 1.  The conversion of
strings, arrays and objects is the parameter `other`. -/
def toNumber (other : JsVal → JsNum) (v : JsVal) : JsNum :=
  match v with
  | JsVal.undefined => JsNum.nan
  | JsVal.null => JsNum.fin 0
  | JsVal.bool b => JsNum.fin (if b then 1 else 0)
  | JsVal.num n => n
  | _ => other v

/-- The element `track[track.length - 1]`. -/
def lastOf (track : List JsVal) : JsVal := track.getLast?.getD JsVal.undefined

/-- The value of `change` in `generateInsights`, lines 370 to 372 of
`price_app.js`. -/
def priceChange (other : JsVal → JsNum) (chartData : ChartData) : JsNum :=
  let lastHist := lastOf chartData.historical
  let lastPred := lastOf chartData.predicted
  (((toNumber other lastPred).sub (toNumber other lastHist)).div
    (toNumber other lastHist)).mulPos 100

namespace PricePage

/-- Embedding of `generateInsights(resp, query)`, lines 355 to 397 of
`price_app.js`: the insights listed, for the members `confidence` and `padded`
of the response and the period of the query. -/
def generateInsights (other : JsVal → JsNum) (confidence padded : JsVal) (period : JsNum)
    (chartData : ChartData) : List String :=
  let confidenceInsight : List String :=
    if confidence.truthy then
      let conf := ((toNumber other confidence).mulPos 100).round
      if conf.ge 80 then
        ["🎯 High confidence prediction - strong historical data patterns detected."]
      else if conf.ge 60 then
        ["📊 Moderate confidence - consider market volatility in planning."]
      else ["⚠️ Lower confidence - limited historical data available."]
    else []
  let changeInsight : List String :=
    if chartData.predicted.length > 0 ∧ chartData.historical.length > 0 then
      let change := priceChange other chartData
      if change.gt 10 then
        ["📈 Significant price increase expected - good time to hold inventory."]
      else if change.lt (-10) then
        ["📉 Price decline forecasted - consider selling sooner."]
      else ["➡️ Relatively stable prices expected in the forecast period."]
    else []
  let periodInsight : List String :=
    if period.ge 6 then ["📅 Long-term forecast - monitor regularly for market changes."]
    else []
  let paddedInsight : List String :=
    if padded.truthy then
      ["ℹ️ Prediction uses interpolated data due to gaps in historical records."]
    else []
  confidenceInsight ++ changeInsight ++ periodInsight ++ paddedInsight

end PricePage

/-- A stand-in for the conversion of strings and objects to numbers. -/
def noNumber (_ : JsVal) : JsNum := JsNum.nan

/-- A database filed under capitalised keys. -/
def capitalDatabase : CropDatabase :=
  [("Rice", JsVal.obj [("name", JsVal.str "Rice"), ("icon", JsVal.str "🌾"),
      ("desc", JsVal.str "A staple cereal of wet fields.")]),
   ("Wheat", JsVal.obj [("name", JsVal.str "Wheat"), ("icon", JsVal.str "🌾"),
      ("desc", JsVal.str "A cool-season cereal.")])]

/-- A response in the old format that names the crop in lower case. -/
def riceResponse : PredictionData :=
  { recommendations := none
    prediction := JsVal.str "rice"
    crop := JsVal.undefined
    recommended_crop := JsVal.undefined
    confidence := JsVal.undefined }

/-! # Theorems -/

/-! ## Series reconciliation -/

theorem drawSeriesTry_isSome {today : String} {tz : Int} {hist : SeriesResponse}
    {nextPrice : JsVal} {pg : Page}
    (h : (drawSeriesTry today tz (SeriesFetch.body hist) nextPrice pg).isSome = true) :
    ∃ pd pp, predictedSeries today tz hist nextPrice = some (pd, pp) := by
  simp only [drawSeriesTry] at h
  cases hps : predictedSeries today tz hist nextPrice with
  | none => simp [hps] at h
  | some p => exact ⟨p.1, p.2, rfl⟩

theorem drawSeries_chartData {today : String} {tz : Int} {hist : SeriesResponse}
    {nextPrice : JsVal} {pd : List String} {pp : List JsVal} (pg : Page)
    (h : predictedSeries today tz hist nextPrice = some (pd, pp)) :
    (drawSeries today tz (SeriesFetch.body hist) nextPrice pg).chartData
      = buildChartData (histDates hist) (histPrices hist) pd pp := by
  simp [drawSeries, drawSeriesTry, h]

theorem predictedSeries_lengths {today : String} {tz : Int} {hist : SeriesResponse}
    {nextPrice : JsVal} {pd : List String} {pp : List JsVal}
    (h : predictedSeries today tz hist nextPrice = some (pd, pp)) :
    pd.length = (if fallbackApplies hist nextPrice then 1 else (respPredictedDates hist).length) ∧
    pp.length = (if fallbackApplies hist nextPrice then 1
      else (respPredictedPrices hist).length) := by
  unfold predictedSeries at h
  by_cases hf : fallbackApplies hist nextPrice = true
  · simp only [hf, if_true] at h ⊢
    split at h
    · simp only [Option.some.injEq, Prod.mk.injEq] at h
      obtain ⟨rfl, rfl⟩ := h
      simp
    · simp at h
  · simp only [hf] at h ⊢
    simp only [Bool.false_eq_true, if_false, Option.some.injEq, Prod.mk.injEq] at h
    obtain ⟨rfl, rfl⟩ := h
    simp

/-- C2, counterexample: two dates with one price and a single predicted price
give three labels over tracks of two values. -/
theorem drawSeries_lengths_differ :
    (drawSeriesTry "2025-01-01" 330 (SeriesFetch.body unevenSeries) (JsVal.num (JsNum.fin 120))
        initialPage).isSome = true
    ∧ (drawSeries "2025-01-01" 330 (SeriesFetch.body unevenSeries) (JsVal.num (JsNum.fin 120))
        initialPage).chartData.labels.length = 3
    ∧ (drawSeries "2025-01-01" 330 (SeriesFetch.body unevenSeries) (JsVal.num (JsNum.fin 120))
        initialPage).chartData.historical.length = 2
    ∧ (drawSeries "2025-01-01" 330 (SeriesFetch.body unevenSeries) (JsVal.num (JsNum.fin 120))
        initialPage).chartData.predicted.length = 2 := by
  refine ⟨?_, ?_, ?_, ?_⟩ <;> rfl

/-- C2, amended: after `drawSeries` rebuilds the chart series, the historical
and the predicted track have the same length, the number of historical prices
plus the number of predicted prices; the label axis has that length exactly
when dates and prices come in equal total numbers, in particular when the
response's dates and prices have equal lengths and so have its predicted dates
and predicted prices. -/
theorem drawSeries_tracks_same_length (today : String) (tz : Int) (hist : SeriesResponse)
    (nextPrice : JsVal) (pg : Page)
    (h : (drawSeriesTry today tz (SeriesFetch.body hist) nextPrice pg).isSome = true) :
    (drawSeries today tz (SeriesFetch.body hist) nextPrice pg).chartData.historical.length
        = (drawSeries today tz (SeriesFetch.body hist) nextPrice pg).chartData.predicted.length
    ∧ (drawSeries today tz (SeriesFetch.body hist) nextPrice pg).chartData.historical.length
        = (histPrices hist).length
          + (if fallbackApplies hist nextPrice then 1 else (respPredictedPrices hist).length)
    ∧ ((drawSeries today tz (SeriesFetch.body hist) nextPrice pg).chartData.labels.length
          = (drawSeries today tz (SeriesFetch.body hist) nextPrice pg).chartData.historical.length
        ↔ (histDates hist).length
            + (if fallbackApplies hist nextPrice then 1 else (respPredictedDates hist).length)
          = (histPrices hist).length
            + (if fallbackApplies hist nextPrice then 1
                else (respPredictedPrices hist).length))
    ∧ ((histDates hist).length = (histPrices hist).length →
        (respPredictedDates hist).length = (respPredictedPrices hist).length →
        (drawSeries today tz (SeriesFetch.body hist) nextPrice pg).chartData.labels.length
          = (drawSeries today tz (SeriesFetch.body hist) nextPrice pg).chartData.historical.length)
    := by
  obtain ⟨pd, pp, hps⟩ := drawSeriesTry_isSome h
  rw [drawSeries_chartData pg hps]
  obtain ⟨hl, hp⟩ := predictedSeries_lengths hps
  simp only [buildChartData, List.length_append, List.length_replicate, hl, hp, Nat.zero_max]
  refine ⟨trivial, trivial, trivial, fun h1 h2 => ?_⟩
  rw [h1]
  split <;> simp [h2]

/-- Witness for the amended C2: two dated prices and a single predicted price
give three labels over two tracks of three values. -/
theorem drawSeries_tracks_same_length_witness :
    (drawSeries "2025-01-01" 330 (SeriesFetch.body evenSeries) (JsVal.num (JsNum.fin 120))
        initialPage).chartData.historical.length
      = (drawSeries "2025-01-01" 330 (SeriesFetch.body evenSeries) (JsVal.num (JsNum.fin 120))
        initialPage).chartData.predicted.length
    ∧ (drawSeries "2025-01-01" 330 (SeriesFetch.body evenSeries) (JsVal.num (JsNum.fin 120))
        initialPage).chartData.labels.length
      = (drawSeries "2025-01-01" 330 (SeriesFetch.body evenSeries) (JsVal.num (JsNum.fin 120))
        initialPage).chartData.historical.length :=
  ⟨(drawSeries_tracks_same_length "2025-01-01" 330 evenSeries (JsVal.num (JsNum.fin 120))
      initialPage (by rfl)).1,
   (drawSeries_tracks_same_length "2025-01-01" 330 evenSeries (JsVal.num (JsNum.fin 120))
      initialPage (by rfl)).2.2.2 (by rfl) (by rfl)⟩

theorem digitChar_spec (n : Nat) :
    (digitChar n).isDigit = true ∧ digitVal (digitChar n) = n % 10 := by
  have hlt : n % 10 < 10 := Nat.mod_lt _ (by decide)
  unfold digitChar digitVal
  generalize n % 10 = k at hlt
  interval_cases k <;> exact ⟨by decide, by decide⟩

theorem matchIsoPattern_isoDate (y m d : Nat) (hy : y ≤ 9999) (hm : m ≤ 99) (hd : d ≤ 99) :
    matchIsoPattern (isoDate ⟨(y : Int), m, d⟩) = some (y, m, d) := by
  have hy1 : (0 : Int) ≤ (y : Int) ∧ (y : Int) ≤ 9999 := ⟨by omega, by omega⟩
  simp only [isoDate, hy1, and_self, if_true, Int.toNat_ofNat, matchIsoPattern,
    List.cons_append, List.nil_append, (digitChar_spec _).1, (digitChar_spec _).2]
  simp only [and_self, if_true, Option.some.injEq, Prod.mk.injEq]
  refine ⟨?_, ?_, ?_⟩ <;> omega

theorem setNextMonth_date (tz : Int) (y m d : Nat)
    (hmonth : 1 ≤ m ∧ m ≤ 12)
    (htz : -1440 < tz ∧ tz < 1440) (hzone : 0 ≤ tz ∨ 2 ≤ d)
    (hnext : d ≤ daysInMonth (if m = 12 then (y : Int) + 1 else y) (if m = 12 then 1 else m + 1)) :
    (setNextMonth tz ⟨⟨(y : Int), m, d⟩, 0⟩).date
      = ⟨if m = 12 then (y : Int) + 1 else y, if m = 12 then 1 else m + 1, d⟩ := by
  by_cases h0 : 0 ≤ tz
  · have e1 : shiftMinutes ⟨⟨(y : Int), m, d⟩, 0⟩ tz = ⟨⟨(y : Int), m, d⟩, tz⟩ := by
      simp only [shiftMinutes, zero_add]
      rw [if_neg (by omega), if_neg (by omega)]
    simp only [setNextMonth, e1]
    by_cases h12 : m = 12
    · subst h12
      simp only [if_true] at hnext ⊢
      simp [makeDay, shiftMinutes, hnext]
    · simp only [h12, if_false] at hnext ⊢
      have hm1 : ¬ (12 < m + 1) := by omega
      simp [makeDay, shiftMinutes, hnext, hm1]
  · have hd2 : 2 ≤ d := by
      rcases hzone with h | h
      · exact absurd h h0
      · exact h
    have e1 : shiftMinutes ⟨⟨(y : Int), m, d⟩, 0⟩ tz = ⟨⟨(y : Int), m, d - 1⟩, tz + 1440⟩ := by
      simp only [shiftMinutes, zero_add]
      rw [if_pos (by omega)]
      simp only [prevDay]
      rw [if_pos (by omega)]
    simp only [setNextMonth, e1]
    by_cases h12 : m = 12
    · subst h12
      simp only [if_true] at hnext ⊢
      have hle : d - 1 ≤ daysInMonth ((y : Int) + 1) 1 := by omega
      have hlt : d - 1 < daysInMonth ((y : Int) + 1) 1 := by omega
      have e2 : makeDay (y : Int) (12 + 1) (d - 1) = ⟨(y : Int) + 1, 1, d - 1⟩ := by
        simp [makeDay, hle]
      rw [e2]
      simp only [shiftMinutes]
      rw [if_neg (by omega), if_pos (by omega)]
      simp only [nextDay]
      rw [if_pos hlt]
      congr 1
      omega
    · simp only [h12, if_false] at hnext ⊢
      have hm1 : ¬ (12 < m + 1) := by omega
      have hle : d - 1 ≤ daysInMonth (y : Int) (m + 1) := by omega
      have hlt : d - 1 < daysInMonth (y : Int) (m + 1) := by omega
      have e2 : makeDay (y : Int) (m + 1) (d - 1) = ⟨(y : Int), m + 1, d - 1⟩ := by
        simp [makeDay, hle, hm1]
      rw [e2]
      simp only [shiftMinutes]
      rw [if_neg (by omega), if_pos (by omega)]
      simp only [nextDay]
      rw [if_pos hlt]
      congr 1
      omega

theorem matchIsoPattern_bounds {s : String} {y m d : Nat}
    (h : matchIsoPattern s = some (y, m, d)) : y ≤ 9999 ∧ m ≤ 99 ∧ d ≤ 99 := by
  have hdig : ∀ c : Char, c.isDigit = true → digitVal c ≤ 9 := by
    intro c hc
    simp only [Char.isDigit, Bool.and_eq_true, decide_eq_true_eq] at hc
    have h2 : c.val.toNat ≤ 57 := by
      have := hc.2
      exact this
    simp only [digitVal, Char.toNat]
    omega
  unfold matchIsoPattern at h
  split at h
  · split at h
    · rename_i a b c d1 s1 e f s2 g h1 _ hc
      simp only [Option.some.injEq, Prod.mk.injEq] at h
      obtain ⟨rfl, rfl, rfl⟩ := h
      have ha := hdig a hc.1
      have hb := hdig b hc.2.1
      have hc1 := hdig c hc.2.2.1
      have hd1 := hdig d1 hc.2.2.2.1
      have he := hdig e hc.2.2.2.2.2.1
      have hf := hdig f hc.2.2.2.2.2.2.1
      have hg := hdig g hc.2.2.2.2.2.2.2.2.1
      have hh := hdig h1 hc.2.2.2.2.2.2.2.2.2
      refine ⟨?_, ?_, ?_⟩ <;> omega
    · simp at h
  · simp at h

/-- C5, counterexample: the label `2024-01-31` gives `2024-03-02`, at UTC and at
the offset of India alike, since February has no 31st day; five hours behind
UTC the label `2024-03-01` gives `2024-03-30`, the month being advanced in
local time; and `9999-12-15` gives the head `+010000-01` of an expanded
year. -/
theorem nextDateFrom_not_same_day :
    nextDateFrom "2025-01-01" 0 ["2024-01-31"] = some "2024-03-02"
    ∧ nextDateFrom "2025-01-01" 330 ["2023-12-15", "2024-01-31"] = some "2024-03-02"
    ∧ nextDateFrom "2025-01-01" (-300) ["2024-03-01"] = some "2024-03-30"
    ∧ nextDateFrom "2025-01-01" 0 ["9999-12-15"] = some "+010000-01" := by
  refine ⟨?_, ?_, ?_, ?_⟩ <;> decide

/-- C5, amended: for a non-empty history whose last label is a calendar date
written `YYYY-MM-DD`, in a time zone of constant offset from UTC,
`nextDateFrom` returns the same day of month in the following month, written
`YYYY-MM-DD`, provided that day exists in the following month, the date is not
in December 9999, and either the zone is not behind UTC or the day is not the
first of its month. -/
theorem nextDateFrom_next_month (today : String) (tz : Int) (labels : List String)
    (last : String) (y m d : Nat)
    (hlast : labels.getLast? = some last)
    (hpat : matchIsoPattern last = some (y, m, d))
    (hmonth : 1 ≤ m ∧ m ≤ 12) (hday : 1 ≤ d ∧ d ≤ daysInMonth y m)
    (htz : -1440 < tz ∧ tz < 1440) (hzone : 0 ≤ tz ∨ 2 ≤ d)
    (hnext : d ≤ daysInMonth (if m = 12 then (y : Int) + 1 else y) (if m = 12 then 1 else m + 1))
    (hyear : ¬ (y = 9999 ∧ m = 12)) :
    nextDateFrom today tz labels
        = some (isoDate ⟨((if m = 12 then y + 1 else y : Nat) : Int),
            if m = 12 then 1 else m + 1, d⟩)
    ∧ matchIsoPattern (isoDate ⟨((if m = 12 then y + 1 else y : Nat) : Int),
            if m = 12 then 1 else m + 1, d⟩)
        = some (if m = 12 then y + 1 else y, if m = 12 then 1 else m + 1, d) := by
  obtain ⟨hy, -, hd⟩ := matchIsoPattern_bounds hpat
  have hparse : parseDate (y, m, d) = some ⟨⟨(y : Int), m, d⟩, 0⟩ := by
    simp [parseDate, hmonth.1, hmonth.2, hday.1, hday.2]
  have hcast : ((if m = 12 then y + 1 else y : Nat) : Int)
      = (if m = 12 then (y : Int) + 1 else y) := by
    split <;> simp
  constructor
  · simp only [nextDateFrom, hlast, hpat, hparse]
    rw [setNextMonth_date tz y m d hmonth htz hzone hnext, hcast]
  · apply matchIsoPattern_isoDate
    · split <;> omega
    · split <;> omega
    · exact hd

/-- Witness for the amended C5: at the offset of India, `2024-02-15` follows
the last label `2024-01-15`. -/
theorem nextDateFrom_next_month_witness :
    nextDateFrom "2025-01-01" 330 ["2023-12-15", "2024-01-15"]
        = some (isoDate ⟨((if 1 = 12 then 2024 + 1 else 2024 : Nat) : Int),
            if 1 = 12 then 1 else 1 + 1, 15⟩)
    ∧ matchIsoPattern (isoDate ⟨((if 1 = 12 then 2024 + 1 else 2024 : Nat) : Int),
            if 1 = 12 then 1 else 1 + 1, 15⟩)
        = some (if 1 = 12 then 2024 + 1 else 2024, if 1 = 12 then 1 else 1 + 1, 15)
    ∧ isoDate ⟨((if 1 = 12 then 2024 + 1 else 2024 : Nat) : Int),
            if 1 = 12 then 1 else 1 + 1, 15⟩ = "2024-02-15" :=
  ⟨(nextDateFrom_next_month "2025-01-01" 330 ["2023-12-15", "2024-01-15"] "2024-01-15"
      2024 1 15 (by decide) (by decide) (by decide) (by decide) (by decide) (by decide)
      (by decide) (by decide)).1,
   (nextDateFrom_next_month "2025-01-01" 330 ["2023-12-15", "2024-01-15"] "2024-01-15"
      2024 1 15 (by decide) (by decide) (by decide) (by decide) (by decide) (by decide)
      (by decide) (by decide)).2,
   by decide⟩


/-! ## Soil classifiers -/

theorem analyzeNPK_eq (n p k : ℚ) (h : 0 < n + p + k) :
    analyzeNPK n p k =
      if 1 / 2 < n / (n + p + k) then ⟨"High Nitrogen", "good"⟩
      else if 3 / 10 < n / (n + p + k) then ⟨"Balanced", "good"⟩
      else ⟨"N Deficient", "moderate"⟩ := by
  simp only [analyzeNPK, JsNum.divFin, ne_eq, ne_of_gt h, not_false_eq_true, if_true, JsNum.gt,
    decide_eq_true_eq]

/-- C8: `analyzePH` returns "Optimal" with class "good" exactly for
`6.0 <= ph <= 7.5`, "Acceptable" with class "moderate" exactly for
`5.5 <= ph < 6.0` or `7.5 < ph <= 8.0`, and "Needs Adjustment" with class "poor"
exactly in the remaining case; every pH value gets one of the three results,
and the three conditions exclude one another. -/
theorem analyzePH_bands (ph : ℚ) :
    (analyzePH ph = ⟨"Optimal", "good"⟩ ↔ 6 ≤ ph ∧ ph ≤ 15 / 2)
    ∧ (analyzePH ph = ⟨"Acceptable", "moderate"⟩
        ↔ (11 / 2 ≤ ph ∧ ph < 6) ∨ (15 / 2 < ph ∧ ph ≤ 8))
    ∧ (analyzePH ph = ⟨"Needs Adjustment", "poor"⟩
        ↔ ¬ (6 ≤ ph ∧ ph ≤ 15 / 2) ∧ ¬ ((11 / 2 ≤ ph ∧ ph < 6) ∨ (15 / 2 < ph ∧ ph ≤ 8)))
    ∧ (analyzePH ph = ⟨"Optimal", "good"⟩ ∨ analyzePH ph = ⟨"Acceptable", "moderate"⟩
        ∨ analyzePH ph = ⟨"Needs Adjustment", "poor"⟩)
    ∧ ¬ ((6 ≤ ph ∧ ph ≤ 15 / 2) ∧ ((11 / 2 ≤ ph ∧ ph < 6) ∨ (15 / 2 < ph ∧ ph ≤ 8))) := by
  have hex : ¬ ((6 ≤ ph ∧ ph ≤ 15 / 2) ∧ ((11 / 2 ≤ ph ∧ ph < 6) ∨ (15 / 2 < ph ∧ ph ≤ 8))) := by
    rintro ⟨⟨h6, h75⟩, ⟨-, hlt⟩ | ⟨hgt, -⟩⟩
    · exact absurd h6 (not_le.mpr hlt)
    · exact absurd h75 (not_le.mpr hgt)
  unfold analyzePH
  by_cases h1 : 6 ≤ ph ∧ ph ≤ 15 / 2
  · rw [if_pos h1]
    refine ⟨⟨fun _ => h1, fun _ => rfl⟩, ⟨fun e => absurd e (by decide), fun e => ?_⟩,
      ⟨fun e => absurd e (by decide), fun e => absurd h1 e.1⟩, Or.inl rfl, hex⟩
    exact absurd ⟨h1, e⟩ hex
  · rw [if_neg h1]
    by_cases h2 : (11 / 2 ≤ ph ∧ ph < 6) ∨ (15 / 2 < ph ∧ ph ≤ 8)
    · rw [if_pos h2]
      exact ⟨⟨fun e => absurd e (by decide), fun e => absurd e h1⟩, ⟨fun _ => h2, fun _ => rfl⟩,
        ⟨fun e => absurd e (by decide), fun e => absurd h2 e.2⟩, Or.inr (Or.inl rfl), hex⟩
    · rw [if_neg h2]
      exact ⟨⟨fun e => absurd e (by decide), fun e => absurd e h1⟩,
        ⟨fun e => absurd e (by decide), fun e => absurd e h2⟩,
        ⟨fun _ => ⟨h1, h2⟩, fun _ => rfl⟩, Or.inr (Or.inr rfl), hex⟩

theorem toFixed_zero_nat (n : Nat) :
    toFixed (n : ℚ) 0
      = String.mk ((List.replicate (0 + 1 - (toString n).data.length) '0'
          ++ (toString n).data).take
            ((List.replicate (0 + 1 - (toString n).data.length) '0'
              ++ (toString n).data).length - 0)) := by
  have h0 : ¬ ((n : ℚ) < 0) := not_lt.mpr (Nat.cast_nonneg n)
  have hfloor : ⌊|(n : ℚ)| * 10 ^ 0 + 1 / 2⌋ = (n : Int) := by
    rw [abs_of_nonneg (Nat.cast_nonneg n), pow_zero, mul_one, Int.floor_eq_iff]
    constructor
    · push_cast
      linarith
    · push_cast
      linarith
  simp only [toFixed, hfloor, Int.toNat_ofNat, if_neg h0, if_true, List.nil_append,
    List.append_nil]

/-- C9: for the inputs N = 90, P = 42, K = 43, whatever the other four fields,
the soil analysis shows the NPK ratio text `90:42:43` and the status
"High Nitrogen" with class "good", the nitrogen share 90/175 being above one
half. -/
theorem displaySoilAnalysis_rice (temperature humidity ph rainfall : ℚ) :
    (displaySoilAnalysis ⟨90, 42, 43, temperature, humidity, ph, rainfall⟩).npkRatio
        = "90:42:43"
    ∧ (displaySoilAnalysis ⟨90, 42, 43, temperature, humidity, ph, rainfall⟩).npkStatus
        = "High Nitrogen"
    ∧ (displaySoilAnalysis ⟨90, 42, 43, temperature, humidity, ph, rainfall⟩).npkStatusClass
        = "analysis-status good"
    ∧ analyzeNPK 90 42 43 = ⟨"High Nitrogen", "good"⟩
    ∧ (90 : ℚ) / (90 + 42 + 43) = 90 / 175
    ∧ (1 : ℚ) / 2 < 90 / 175 := by
  have hnpk : analyzeNPK 90 42 43 = ⟨"High Nitrogen", "good"⟩ := by
    rw [analyzeNPK_eq 90 42 43 (by norm_num), if_pos (by norm_num)]
  have h90 : toFixed 90 0 = "90" := by
    have h := toFixed_zero_nat 90
    rw [Nat.cast_ofNat] at h
    rw [h]
    decide
  have h42 : toFixed 42 0 = "42" := by
    have h := toFixed_zero_nat 42
    rw [Nat.cast_ofNat] at h
    rw [h]
    decide
  have h43 : toFixed 43 0 = "43" := by
    have h := toFixed_zero_nat 43
    rw [Nat.cast_ofNat] at h
    rw [h]
    decide
  refine ⟨?_, ?_, ?_, hnpk, by norm_num, by norm_num⟩
  · simp only [displaySoilAnalysis, h90, h42, h43]
    decide
  · simp only [displaySoilAnalysis, hnpk]
  · simp only [displaySoilAnalysis, hnpk]
    decide


/-! ## Reference lookup -/

theorem truthy_of_lowerName {v : JsVal} {n : String} (h : lowerName v = some n) :
    v.truthy = true := by
  cases v <;> simp [lowerName] at h
  rfl

theorem mem_of_lookup {db : CropDatabase} {k : String} {v : JsVal}
    (h : db.lookup k = some v) : (k, v) ∈ db := by
  obtain ⟨l1, l2, rfl, -⟩ := List.lookup_eq_some_iff.mp h
  simp

theorem findByName_eq_find (lower : String) (vals : List JsVal)
    (hn : ∀ c ∈ vals, ∃ n, lowerName c = some n) :
    findByName lower vals
      = some ((vals.find? (fun c => decide (lowerName c = some lower))).getD JsVal.undefined) := by
  induction vals with
  | nil => rfl
  | cons c rest ih =>
    obtain ⟨n, hc⟩ := hn c (List.mem_cons_self _ _)
    have ih1 := ih (fun d hd => hn d (List.mem_cons_of_mem _ hd))
    simp only [findByName, hc, List.find?_cons]
    by_cases he : n = lower
    · subst he
      simp
    · have hne : ¬ (some n = some lower) := fun h => he (Option.some.inj h)
      simp only [if_neg he, hne, decide_False, ih1]

/-- C11, counterexample: in a database whose only entry has no display name,
the label `wheat` reaches the scan by name and the lookup fails with a
`TypeError`; and in the empty database the label `constructor` resolves to the
member every object inherits, not to the placeholder. -/
theorem lookup_fails_on_nameless_entry :
    cropInfoFor namelessDatabase "wheat" = none
    ∧ lookupBySpec namelessDatabase "wheat" = placeholderEntry "wheat"
    ∧ cropInfoFor [] "constructor" = some (JsVal.builtin "constructor")
    ∧ lookupBySpec [] "constructor" = placeholderEntry "constructor" := by
  refine ⟨?_, ?_, ?_, ?_⟩ <;> rfl

/-- C11, amended: in a database whose every entry is an object with a string
display name, for a label that names no member of `Object.prototype` as written
or capitalised, the lookup of `displayResults` does not fail and returns the
entry under the exact key if present, otherwise the entry under the capitalised
label if present, otherwise the first entry whose display name equals the label
ignoring case, otherwise the placeholder entry. -/
theorem cropInfoFor_eq_spec (db : CropDatabase) (label : String)
    (hn : ∀ p ∈ db, (lowerName p.2).isSome = true)
    (hl : label ∉ objectPrototypeNames) (hc : capitalize label ∉ objectPrototypeNames) :
    cropInfoFor db label = some (lookupBySpec db label) := by
  have hu : JsVal.undefined.truthy = false := rfl
  have hvals : ∀ c ∈ db.map Prod.snd, ∃ n, lowerName c = some n := by
    intro c hc1
    obtain ⟨p, hp, rfl⟩ := List.mem_map.mp hc1
    exact Option.isSome_iff_exists.mp (hn p hp)
  unfold cropInfoFor lookupChain lookupBySpec getProp
  cases h1 : db.lookup label with
  | some v =>
    obtain ⟨n, hv⟩ := Option.isSome_iff_exists.mp (hn _ (mem_of_lookup h1))
    simp only [truthy_of_lowerName hv, if_true]
  | none =>
    simp only [if_neg hl, hu, Bool.false_eq_true, if_false]
    cases h2 : db.lookup (capitalize label) with
    | some v =>
      obtain ⟨n, hv⟩ := Option.isSome_iff_exists.mp (hn _ (mem_of_lookup h2))
      simp only [truthy_of_lowerName hv, if_true]
    | none =>
      simp only [if_neg hc, hu, Bool.false_eq_true, if_false,
        findByName_eq_find _ _ hvals]
      cases h3 : (db.map Prod.snd).find?
          (fun c => decide (lowerName c = some (toLowerCase label))) with
      | none => simp only [Option.getD_none, hu, Bool.false_eq_true, if_false]
      | some e =>
        obtain ⟨n, he⟩ := hvals e (List.mem_of_find?_eq_some h3)
        simp only [Option.getD_some, truthy_of_lowerName he, if_true]

/-- Witness for the amended C11: `RICE` is no key of the database, as written
or capitalised, and is found by its display name. -/
theorem cropInfoFor_eq_spec_witness :
    cropInfoFor grainDatabase "RICE" = some (lookupBySpec grainDatabase "RICE")
    ∧ lookupBySpec grainDatabase "RICE"
        = JsVal.obj [("name", JsVal.str "Rice"), ("icon", JsVal.str "🌾"),
            ("desc", JsVal.str "A staple cereal of wet fields.")] :=
  ⟨cropInfoFor_eq_spec grainDatabase "RICE" (by decide) (by decide) (by decide), by rfl⟩


/-! ## The chart and the data kept for the export -/

theorem drawSeries_of_try_none {today : String} {tz : Int} {r : SeriesFetch}
    {nextPrice : JsVal} {pg : Page} (h : drawSeriesTry today tz r nextPrice pg = none) :
    drawSeries today tz r nextPrice pg =
      if nextPrice.isDefined then
        { pg with
          chart := ⟨[today], [JsVal.null], [nextPrice]⟩
          chartNote := "⚠️ Historical data unavailable." }
      else
        { pg with toasts := pg.toasts ++ [("Could not render chart data.", true)] } := by
  simp only [drawSeries, h]

theorem drawSeries_chart_eq_chartData (today : String) (tz : Int) (r : SeriesFetch)
    (nextPrice : JsVal) (pg : Page)
    (h : (drawSeriesTry today tz r nextPrice pg).isSome = true) :
    (drawSeries today tz r nextPrice pg).chart.labels
        = (drawSeries today tz r nextPrice pg).chartData.labels
    ∧ (drawSeries today tz r nextPrice pg).chart.historical
        = (drawSeries today tz r nextPrice pg).chartData.historical
    ∧ (drawSeries today tz r nextPrice pg).chart.predicted
        = (drawSeries today tz r nextPrice pg).chartData.predicted := by
  cases r with
  | body hist =>
    obtain ⟨pd, pp, hps⟩ := drawSeriesTry_isSome h
    simp [drawSeries, drawSeriesTry, hps]
  | networkError => simp [drawSeriesTry] at h
  | notOk => simp [drawSeriesTry] at h
  | badJson => simp [drawSeriesTry] at h
  | nullBody => simp [drawSeriesTry] at h

/-- C12, the code at the failing input: when the series request fails on a
network error and the predicted price is 120, the chart shows the single point
of the `catch` block while `chartData` keeps what it held, the empty series on a
fresh page and the whole series of the previous prediction otherwise. -/
theorem drawSeries_fallback_keeps_chartData :
    (drawSeries "2025-01-01" 330 SeriesFetch.networkError (JsVal.num (JsNum.fin 120))
        initialPage).chart.labels = ["2025-01-01"]
    ∧ (drawSeries "2025-01-01" 330 SeriesFetch.networkError (JsVal.num (JsNum.fin 120))
        initialPage).chart.predicted = [JsVal.num (JsNum.fin 120)]
    ∧ (drawSeries "2025-01-01" 330 SeriesFetch.networkError (JsVal.num (JsNum.fin 120))
        initialPage).chartData.labels = []
    ∧ (drawSeries "2025-01-01" 330 SeriesFetch.networkError (JsVal.num (JsNum.fin 120))
        initialPage).chartData.predicted = []
    ∧ (drawSeries "2025-01-02" 330 SeriesFetch.networkError (JsVal.num (JsNum.fin 130))
        (drawSeries "2025-01-01" 330 (SeriesFetch.body evenSeries) (JsVal.num (JsNum.fin 120))
          initialPage)).chart.labels = ["2025-01-02"]
    ∧ (drawSeries "2025-01-02" 330 SeriesFetch.networkError (JsVal.num (JsNum.fin 130))
        (drawSeries "2025-01-01" 330 (SeriesFetch.body evenSeries) (JsVal.num (JsNum.fin 120))
          initialPage)).chartData.labels = ["2024-01-15", "2024-02-15", "2024-03-15"] := by
  refine ⟨?_, ?_, ?_, ?_, ?_, ?_⟩ <;> rfl

/-- C13: `drawSeries` is a total function of the outcome of the series request,
so it returns whatever that outcome is; when the request fails (network
failure, non-OK status, unparsable body, a body that makes the `try` block
throw) and `predicted_next_price` is defined, the chart shows the one label
`today` with historical track `[null]` and predicted track
`[predicted_next_price]` and the note "Historical data unavailable."; when it is
undefined the chart is left as it was and an error notification is shown. -/
theorem drawSeries_fails_soft (today : String) (tz : Int) (r : SeriesFetch)
    (nextPrice : JsVal) (pg : Page)
    (hfail : r = SeriesFetch.networkError ∨ r = SeriesFetch.notOk ∨ r = SeriesFetch.badJson
      ∨ r = SeriesFetch.nullBody ∨ drawSeriesTry today tz r nextPrice pg = none) :
    (nextPrice.isDefined = true →
        (drawSeries today tz r nextPrice pg).chart.labels = [today]
        ∧ (drawSeries today tz r nextPrice pg).chart.historical = [JsVal.null]
        ∧ (drawSeries today tz r nextPrice pg).chart.predicted = [nextPrice]
        ∧ (drawSeries today tz r nextPrice pg).chartNote = "⚠️ Historical data unavailable."
        ∧ (drawSeries today tz r nextPrice pg).toasts = pg.toasts)
    ∧ (nextPrice.isDefined = false →
        (drawSeries today tz r nextPrice pg).toasts
          = pg.toasts ++ [("Could not render chart data.", true)]
        ∧ (drawSeries today tz r nextPrice pg).chart = pg.chart
        ∧ (drawSeries today tz r nextPrice pg).chartNote = pg.chartNote) := by
  have hnone : drawSeriesTry today tz r nextPrice pg = none := by
    rcases hfail with h | h | h | h | h
    · subst h; rfl
    · subst h; rfl
    · subst h; rfl
    · subst h; rfl
    · exact h
  rw [drawSeries_of_try_none hnone]
  constructor
  · intro hd
    rw [if_pos hd]
    exact ⟨rfl, rfl, rfl, rfl, rfl⟩
  · intro hd
    rw [if_neg (by simp [hd])]
    exact ⟨rfl, rfl, rfl⟩

/-- Witness for C13: a non-OK status with the predicted price 120, and a
network failure without a predicted price. -/
theorem drawSeries_fails_soft_witness :
    ((drawSeries "2025-01-01" 330 SeriesFetch.notOk (JsVal.num (JsNum.fin 120))
        initialPage).chart.labels = ["2025-01-01"]
      ∧ (drawSeries "2025-01-01" 330 SeriesFetch.notOk (JsVal.num (JsNum.fin 120))
        initialPage).chart.historical = [JsVal.null]
      ∧ (drawSeries "2025-01-01" 330 SeriesFetch.notOk (JsVal.num (JsNum.fin 120))
        initialPage).chart.predicted = [JsVal.num (JsNum.fin 120)]
      ∧ (drawSeries "2025-01-01" 330 SeriesFetch.notOk (JsVal.num (JsNum.fin 120))
        initialPage).chartNote = "⚠️ Historical data unavailable."
      ∧ (drawSeries "2025-01-01" 330 SeriesFetch.notOk (JsVal.num (JsNum.fin 120))
        initialPage).toasts = initialPage.toasts)
    ∧ ((drawSeries "2025-01-01" 330 SeriesFetch.networkError JsVal.undefined
        initialPage).toasts = initialPage.toasts ++ [("Could not render chart data.", true)]
      ∧ (drawSeries "2025-01-01" 330 SeriesFetch.networkError JsVal.undefined
        initialPage).chart = initialPage.chart
      ∧ (drawSeries "2025-01-01" 330 SeriesFetch.networkError JsVal.undefined
        initialPage).chartNote = initialPage.chartNote) :=
  ⟨(drawSeries_fails_soft "2025-01-01" 330 SeriesFetch.notOk (JsVal.num (JsNum.fin 120))
      initialPage (Or.inr (Or.inl rfl))).1 (by rfl),
   (drawSeries_fails_soft "2025-01-01" 330 SeriesFetch.networkError JsVal.undefined
      initialPage (Or.inl rfl)).2 (by rfl)⟩


/-! ## Loading the reference document -/

theorem PricePage.loadCropDatabase_failure (r : DocFetch)
    (h : r = DocFetch.networkError ∨ (∃ body, r = DocFetch.response false body)
      ∨ (∃ ok, r = DocFetch.response ok none)
      ∨ (∃ ok data, r = DocFetch.response ok (some data)
          ∧ (data = JsVal.null ∨ typeOf data ≠ "object"))) :
    PricePage.loadCropDatabase r = JsVal.obj [] := by
  rcases h with h | ⟨body, h⟩ | ⟨ok, h⟩ | ⟨ok, data, h, hd⟩
  · subst h; rfl
  · subst h; rfl
  · subst h
    cases ok <;> rfl
  · subst h
    cases ok
    · rfl
    · rcases hd with hd | hd
      · subst hd; rfl
      · simp [PricePage.loadCropDatabase, hd]

/-- C15, the code at the failing inputs: on the recommendation page a non-OK
response with a JSON body, and a response whose body is the number 5, both
become the crop database; on the price page both leave the empty table. -/
theorem CropPage.loadCropDatabase_keeps_body :
    CropPage.loadCropDatabase
        (DocFetch.response false (some (JsVal.obj [("detail", JsVal.str "Not Found")])))
      = JsVal.obj [("detail", JsVal.str "Not Found")]
    ∧ CropPage.loadCropDatabase (DocFetch.response true (some (JsVal.num (JsNum.fin 5))))
      = JsVal.num (JsNum.fin 5)
    ∧ PricePage.loadCropDatabase
        (DocFetch.response false (some (JsVal.obj [("detail", JsVal.str "Not Found")])))
      = JsVal.obj []
    ∧ PricePage.loadCropDatabase (DocFetch.response true (some (JsVal.num (JsNum.fin 5))))
      = JsVal.obj [] := by
  refine ⟨?_, ?_, ?_, ?_⟩ <;> rfl

/-! ## The API wrapper -/

/-- C17: for every response, `apiPost` fails exactly when the status is not OK;
it then throws an `Error` built from the `detail` member of the parsed body when
that member is truthy, otherwise from the raw body text when that is not empty,
otherwise from "Request failed"; on an OK status it returns the parsed body, or
the object holding the text under `raw` when the body is not valid JSON.  (When
the request itself fails, `apiPost` fails with that failure.) -/
theorem apiPost_spec (jsonParse : String → Option JsVal) (ok : Bool) (txt : String) :
    ((∃ e, apiPost jsonParse (PostFetch.response ok txt) = Except.error e) ↔ ok = false)
    ∧ (ok = false →
        (∀ ps, jsonParse txt = some (JsVal.obj ps) → (getProp ps "detail").truthy = true →
          apiPost jsonParse (PostFetch.response ok txt)
            = Except.error (ApiFailure.thrown (getProp ps "detail")))
        ∧ ((∀ ps, jsonParse txt = some (JsVal.obj ps) → (getProp ps "detail").truthy = false) →
            txt ≠ "" →
            apiPost jsonParse (PostFetch.response ok txt)
              = Except.error (ApiFailure.thrown (JsVal.str txt)))
        ∧ ((∀ ps, jsonParse txt = some (JsVal.obj ps) → (getProp ps "detail").truthy = false) →
            txt = "" →
            apiPost jsonParse (PostFetch.response ok txt)
              = Except.error (ApiFailure.thrown (JsVal.str "Request failed"))))
    ∧ (ok = true →
        (∀ v, jsonParse txt = some v →
          apiPost jsonParse (PostFetch.response ok txt) = Except.ok v)
        ∧ (jsonParse txt = none →
          apiPost jsonParse (PostFetch.response ok txt)
            = Except.ok (JsVal.obj [("raw", JsVal.str txt)])))
    ∧ apiPost jsonParse PostFetch.networkError = Except.error ApiFailure.network := by
  have hu : JsVal.undefined.truthy = false := rfl
  have hnodetail : (∀ ps, jsonParse txt = some (JsVal.obj ps) →
      (getProp ps "detail").truthy = false) →
      (detailOf (match jsonParse txt with
        | some v => v
        | none => JsVal.obj [("raw", JsVal.str txt)])).truthy = false := by
    intro h
    cases hj : jsonParse txt with
    | none => rfl
    | some v =>
      cases v with
      | obj ps => exact h ps hj
      | _ => rfl
  refine ⟨?_, ?_, ?_, rfl⟩
  · cases ok
    · simp [apiPost]
    · simp [apiPost]
  · intro hok
    subst hok
    refine ⟨fun ps hj ht => ?_, fun h hne => ?_, fun h he => ?_⟩
    · simp [apiPost, hj, detailOf, ht]
    · have hd := hnodetail h
      have ht : (JsVal.str txt).truthy = true := by simp [JsVal.truthy, hne]
      simp only [apiPost, Bool.not_false, if_true, hd, Bool.false_eq_true, if_false, ht]
    · have hd := hnodetail h
      have ht : (JsVal.str txt).truthy = false := by simp [JsVal.truthy, he]
      simp only [apiPost, Bool.not_false, if_true, hd, Bool.false_eq_true, if_false, ht]
  · intro hok
    subst hok
    refine ⟨fun v hj => ?_, fun hj => ?_⟩
    · simp [apiPost, hj]
    · simp [apiPost, hj]

/-- Witness for C17: a non-OK response whose body carries a `detail`, a non-OK
response with a plain text body, one with an empty body, and an OK response
whose body is not JSON. -/
theorem apiPost_spec_witness :
    apiPost sampleJsonParse
        (PostFetch.response false "\x7b\"detail\":\"No model for this crop\"\x7d")
      = Except.error (ApiFailure.thrown
          (getProp [("detail", JsVal.str "No model for this crop")] "detail"))
    ∧ apiPost sampleJsonParse (PostFetch.response false "Bad Gateway")
      = Except.error (ApiFailure.thrown (JsVal.str "Bad Gateway"))
    ∧ apiPost sampleJsonParse (PostFetch.response false "")
      = Except.error (ApiFailure.thrown (JsVal.str "Request failed"))
    ∧ apiPost sampleJsonParse (PostFetch.response true "pong")
      = Except.ok (JsVal.obj [("raw", JsVal.str "pong")]) :=
  ⟨((apiPost_spec sampleJsonParse false
        "\x7b\"detail\":\"No model for this crop\"\x7d").2.1 rfl).1
      [("detail", JsVal.str "No model for this crop")] (by rfl) (by rfl),
   ((apiPost_spec sampleJsonParse false "Bad Gateway").2.1 rfl).2.1
      (fun ps h => by simp [sampleJsonParse] at h) (by decide),
   ((apiPost_spec sampleJsonParse false "").2.1 rfl).2.2
      (fun ps h => by simp [sampleJsonParse] at h) rfl,
   ((apiPost_spec sampleJsonParse true "pong").2.2.1 rfl).2 (by rfl)⟩


/-! ## Authentication pages -/

/-- C19: on both pages `getErrorMessage` is defined on every code; each listed
code, eight on the login page and four on the sign-up page, has its own fixed
non-empty message; every other value, `undefined` included, gets "An error
occurred. Please try again."; and `auth/invalid-email` has the same message on
both pages. -/
theorem getErrorMessage_table (code : JsVal) :
    (LoginHandler.getErrorMessage (JsVal.str "auth/user-not-found")
        = "No account found with this email."
      ∧ LoginHandler.getErrorMessage (JsVal.str "auth/wrong-password") = "Incorrect password."
      ∧ LoginHandler.getErrorMessage (JsVal.str "auth/invalid-email") = "Invalid email address."
      ∧ LoginHandler.getErrorMessage (JsVal.str "auth/user-disabled")
        = "This account has been disabled."
      ∧ LoginHandler.getErrorMessage (JsVal.str "auth/too-many-requests")
        = "Too many failed attempts. Please try again later."
      ∧ LoginHandler.getErrorMessage (JsVal.str "auth/popup-closed-by-user")
        = "Sign-in popup was closed."
      ∧ LoginHandler.getErrorMessage (JsVal.str "auth/cancelled-popup-request")
        = "Sign-in was cancelled."
      ∧ LoginHandler.getErrorMessage (JsVal.str "auth/invalid-credential")
        = "Invalid email or password.")
    ∧ (SignupForm.getErrorMessage (JsVal.str "auth/email-already-in-use")
        = "An account with this email already exists."
      ∧ SignupForm.getErrorMessage (JsVal.str "auth/invalid-email") = "Invalid email address."
      ∧ SignupForm.getErrorMessage (JsVal.str "auth/weak-password") = "Password is too weak."
      ∧ SignupForm.getErrorMessage (JsVal.str "auth/operation-not-allowed")
        = "Operation not allowed.")
    ∧ (loginCodes.map (fun c => LoginHandler.getErrorMessage (JsVal.str c))).Nodup
    ∧ (signupCodes.map (fun c => SignupForm.getErrorMessage (JsVal.str c))).Nodup
    ∧ (∀ c ∈ loginCodes, LoginHandler.getErrorMessage (JsVal.str c) ≠ ""
        ∧ LoginHandler.getErrorMessage (JsVal.str c) ≠ "An error occurred. Please try again.")
    ∧ (∀ c ∈ signupCodes, SignupForm.getErrorMessage (JsVal.str c) ≠ ""
        ∧ SignupForm.getErrorMessage (JsVal.str c) ≠ "An error occurred. Please try again.")
    ∧ ((∀ c ∈ loginCodes, code ≠ JsVal.str c) →
        LoginHandler.getErrorMessage code = "An error occurred. Please try again.")
    ∧ ((∀ c ∈ signupCodes, code ≠ JsVal.str c) →
        SignupForm.getErrorMessage code = "An error occurred. Please try again.")
    ∧ LoginHandler.getErrorMessage JsVal.undefined = "An error occurred. Please try again."
    ∧ SignupForm.getErrorMessage JsVal.undefined = "An error occurred. Please try again."
    ∧ LoginHandler.getErrorMessage (JsVal.str "auth/invalid-email")
        = SignupForm.getErrorMessage (JsVal.str "auth/invalid-email") := by
  refine ⟨by decide, by decide, by decide, by decide, by decide, by decide, ?_, ?_,
    rfl, rfl, rfl⟩
  · intro h
    cases code with
    | str s =>
      have hne : ∀ c ∈ loginCodes, s ≠ c := fun c hc he => h c hc (by rw [he])
      simp only [LoginHandler.getErrorMessage]
      rw [if_neg (hne _ (by decide)), if_neg (hne _ (by decide)), if_neg (hne _ (by decide)),
        if_neg (hne _ (by decide)), if_neg (hne _ (by decide)), if_neg (hne _ (by decide)),
        if_neg (hne _ (by decide)), if_neg (hne _ (by decide))]
    | _ => rfl
  · intro h
    cases code with
    | str s =>
      have hne : ∀ c ∈ signupCodes, s ≠ c := fun c hc he => h c hc (by rw [he])
      simp only [SignupForm.getErrorMessage]
      rw [if_neg (hne _ (by decide)), if_neg (hne _ (by decide)), if_neg (hne _ (by decide)),
        if_neg (hne _ (by decide))]
    | _ => rfl

/-- Witness for C19: a code listed on neither page. -/
theorem getErrorMessage_table_witness :
    LoginHandler.getErrorMessage (JsVal.str "auth/network-request-failed")
        = "An error occurred. Please try again."
    ∧ SignupForm.getErrorMessage (JsVal.str "auth/network-request-failed")
        = "An error occurred. Please try again." :=
  ⟨(getErrorMessage_table (JsVal.str "auth/network-request-failed")).2.2.2.2.2.2.1
      (fun c hc he => by
        have h := JsVal.str.inj he
        subst h
        revert hc
        decide),
   (getErrorMessage_table (JsVal.str "auth/network-request-failed")).2.2.2.2.2.2.2.1
      (fun c hc he => by
        have h := JsVal.str.inj he
        subst h
        revert hc
        decide)⟩


/-! ## The recommendation form -/

theorem mapThrowing_isSome {α β : Type} (f : α → Option β) (l : List α)
    (h : ∀ a ∈ l, (f a).isSome = true) : (mapThrowing f l).isSome = true := by
  induction l with
  | nil => rfl
  | cons a rest ih =>
    obtain ⟨b, hb⟩ := Option.isSome_iff_exists.mp (h a (List.mem_cons_self _ _))
    obtain ⟨bs, hbs⟩ := Option.isSome_iff_exists.mp
      (ih (fun x hx => h x (List.mem_cons_of_mem _ hx)))
    simp [mapThrowing, hb, hbs]

theorem cropInfoFor_isSome (db : CropDatabase) (label : String)
    (hn : ∀ p ∈ db, (lowerName p.2).isSome = true) :
    (cropInfoFor db label).isSome = true := by
  have hvals : ∀ c ∈ db.map Prod.snd, ∃ n, lowerName c = some n := by
    intro c hc1
    obtain ⟨p, hp, rfl⟩ := List.mem_map.mp hc1
    exact Option.isSome_iff_exists.mp (hn p hp)
  have hchain : (lookupChain db label).isSome = true := by
    by_cases h1 : (getProp db label).truthy = true
    · simp [lookupChain, h1]
    · by_cases h2 : (getProp db (capitalize label)).truthy = true
      · simp [lookupChain, h1, h2]
      · simp [lookupChain, h1, h2, findByName_eq_find _ _ hvals]
  obtain ⟨v, hv⟩ := Option.isSome_iff_exists.mp hchain
  unfold cropInfoFor
  rw [hv]
  dsimp only
  split <;> rfl

theorem isString_iff (v : JsVal) : isString v = true ↔ ∃ s, v = JsVal.str s := by
  cases v <;> simp [isString]

theorem readMember_of_isString {v : JsVal} {key : String}
    (h : isString (memberOf v key) = true) : readMember v key = some (memberOf v key) := by
  cases v <;> first | rfl | (simp [memberOf, isString] at h)

theorem readMember_of_isNumber {v : JsVal} {key : String}
    (h : isNumber (memberOf v key) = true) : readMember v key = some (memberOf v key) := by
  cases v <;> first | rfl | (simp [memberOf, isNumber] at h)

theorem firstPresent_isString (p c r : JsVal)
    (hs : ((!p.truthy || isString p) && (!c.truthy || isString c)
      && (!r.truthy || isString r)) = true) :
    ∃ label, (if p.truthy then p else if c.truthy then c else if r.truthy then r
      else JsVal.str "unknown") = JsVal.str label := by
  simp only [Bool.and_eq_true, Bool.or_eq_true, Bool.not_eq_true'] at hs
  obtain ⟨⟨hp, hc⟩, hr⟩ := hs
  by_cases tp : p.truthy = true
  · have : isString p = true := by
      rcases hp with h | h
      · rw [h] at tp; exact absurd tp (by decide)
      · exact h
    obtain ⟨label, hl⟩ := (isString_iff _).mp this
    exact ⟨label, by rw [if_pos tp, hl]⟩
  · by_cases tc : c.truthy = true
    · have : isString c = true := by
        rcases hc with h | h
        · rw [h] at tc; exact absurd tc (by decide)
        · exact h
      obtain ⟨label, hl⟩ := (isString_iff _).mp this
      exact ⟨label, by rw [if_neg tp, if_pos tc, hl]⟩
    · by_cases tr : r.truthy = true
      · have : isString r = true := by
          rcases hr with h | h
          · rw [h] at tr; exact absurd tr (by decide)
          · exact h
        obtain ⟨label, hl⟩ := (isString_iff _).mp this
        exact ⟨label, by rw [if_neg tp, if_neg tc, if_pos tr, hl]⟩
      · exact ⟨"unknown", by rw [if_neg tp, if_neg tc, if_neg tr]⟩

theorem topCropOf_of_wellShaped (data : PredictionData) (hs : wellShaped data = true) :
    ∃ label, topCropOf data = some (JsVal.str label) ∧ labelBySpec data = JsVal.str label := by
  obtain ⟨recs, p, c, r, conf⟩ := data
  cases recs with
  | none =>
    obtain ⟨label, hl⟩ := firstPresent_isString p c r hs
    exact ⟨label, congrArg some hl, hl⟩
  | some l =>
    cases l with
    | nil =>
      obtain ⟨label, hl⟩ := firstPresent_isString p c r hs
      exact ⟨label, congrArg some hl, hl⟩
    | cons first rest =>
      simp only [wellShaped, Bool.and_eq_true] at hs
      obtain ⟨label, hl⟩ := (isString_iff _).mp hs.1
      refine ⟨label, ?_, hl⟩
      simp only [topCropOf]
      rw [readMember_of_isString hs.1, hl]

theorem recommendationChip_isSome (db : CropDatabase) (r : JsVal)
    (hc : isString (memberOf r "crop") = true) (hn : isNumber (memberOf r "confidence") = true) :
    (recommendationChip db r).isSome = true := by
  obtain ⟨crop, hcrop⟩ := (isString_iff _).mp hc
  have hfix : (toFixedOne (memberOf r "confidence")).isSome = true := by
    cases hv : memberOf r "confidence" with
    | num n => cases n <;> rfl
    | _ => rw [hv] at hn; simp [isNumber] at hn
  obtain ⟨text, htext⟩ := Option.isSome_iff_exists.mp hfix
  simp only [recommendationChip, readMember_of_isString hc, hcrop, htext]
  rfl

theorem displayTopRecommendations_isSome (db : CropDatabase) (recs : List JsVal)
    (h : ∀ r ∈ (recs.drop 1).take 2,
      isString (memberOf r "crop") = true ∧ isNumber (memberOf r "confidence") = true) :
    (displayTopRecommendations db recs).isSome = true := by
  have hm := mapThrowing_isSome (recommendationChip db) ((recs.drop 1).take 2)
    (fun r hr => recommendationChip_isSome db r (h r hr).1 (h r hr).2)
  obtain ⟨chips, hchips⟩ := Option.isSome_iff_exists.mp hm
  unfold displayTopRecommendations
  dsimp only
  split
  · rw [hchips]
    rfl
  · rfl

theorem alternativeChip_isSome (db : CropDatabase) (crop : String)
    (hn : ∀ p ∈ db, (lowerName p.2).isSome = true) (hk : crop ∈ db.map Prod.fst) :
    (alternativeChip db crop).isSome = true := by
  have hl : (db.lookup crop).isSome = true := by
    rw [List.lookup_isSome_iff]
    obtain ⟨p, hp, rfl⟩ := List.mem_map.mp hk
    exact ⟨p, hp, by simp⟩
  obtain ⟨v, hv⟩ := Option.isSome_iff_exists.mp hl
  obtain ⟨n, hname⟩ := Option.isSome_iff_exists.mp (hn _ (mem_of_lookup hv))
  have hg : getProp db crop = v := by simp [getProp, hv]
  cases v with
  | obj ps => simp [alternativeChip, hg, readMember]
  | _ => simp [lowerName] at hname

theorem generateAlternatives_isSome (db : CropDatabase) (mainCrop : String)
    (hn : ∀ p ∈ db, (lowerName p.2).isSome = true) :
    (generateAlternatives db mainCrop).isSome = true := by
  have hm := mapThrowing_isSome (alternativeChip db)
    (((db.map Prod.fst).filter (fun crop => decide (crop ≠ mainCrop))).take 5)
    (fun crop hc => alternativeChip_isSome db crop hn
      (List.mem_of_mem_filter (List.mem_of_mem_take hc)))
  obtain ⟨chips, hchips⟩ := Option.isSome_iff_exists.mp hm
  unfold generateAlternatives
  dsimp only
  split
  · rw [hchips]
    rfl
  · rfl

theorem shown_isSome (db : CropDatabase) (data : PredictionData) (cropName : String)
    (hs : wellShaped data = true) (hn : ∀ p ∈ db, (lowerName p.2).isSome = true) :
    (match data.recommendations with
      | some recommendations =>
        if recommendations.length > 1 then displayTopRecommendations db recommendations
        else generateAlternatives db cropName
      | none => generateAlternatives db cropName).isSome = true := by
  cases hrec : data.recommendations with
  | none => exact generateAlternatives_isSome db cropName hn
  | some recs =>
    dsimp only
    split
    · rename_i hlen
      apply displayTopRecommendations_isSome
      cases recs with
      | nil => simp at hlen
      | cons first rest =>
        intro r hr
        simp only [wellShaped, hrec, Bool.and_eq_true, List.all_eq_true] at hs
        exact hs.2 r (by simpa using hr)
    · exact generateAlternatives_isSome db cropName hn

/-- C14, counterexample: a response whose only recommendation names its crop
under `label` instead of `crop`, and a response in the old format whose
`prediction` is the number 7; in both the chosen label is no string and
`displayResults` fails on `toLowerCase`. -/
theorem displayResults_throws :
    displayResults grainDatabase mislabelledResponse riceInputs = none
    ∧ displayResults grainDatabase indexResponse riceInputs = none
    ∧ labelBySpec mislabelledResponse = JsVal.undefined
    ∧ labelBySpec indexResponse = JsVal.num (JsNum.fin 7) := by
  refine ⟨?_, ?_, ?_, ?_⟩ <;> rfl

/-- C14, amended: for a response of the expected shape (a string `crop` in the
first recommendation, a string `crop` and a numeric `confidence` in the second
and third, and otherwise string values in those of `prediction`, `crop` and
`recommended_crop` that are present) and a database whose entries are objects
with a string display name, `displayResults` completes without an error and
shows the reference entry of the label: the first recommendation's crop when
the list of recommendations is not empty, otherwise the first present of
`prediction`, `crop`, `recommended_crop`, otherwise "unknown", which is shown
with the description "Details unavailable" when the database has no entry for
it. -/
theorem displayResults_shows_label (db : CropDatabase) (data : PredictionData)
    (inputs : SoilInputs)
    (hs : wellShaped data = true) (hn : ∀ p ∈ db, (lowerName p.2).isSome = true) :
    ∃ view label, displayResults db data inputs = some view
      ∧ labelBySpec data = JsVal.str label
      ∧ view.topCrop = label
      ∧ cropInfoFor db label = some view.cropInfo
      ∧ view.recommendedCrop = memberOf view.cropInfo "name"
      ∧ view.cropDescription = memberOf view.cropInfo "desc"
      ∧ (labelBySpec data = JsVal.str "unknown" →
          lookupChain db "unknown" = some JsVal.undefined →
          view.recommendedCrop = JsVal.str "unknown"
          ∧ view.cropDescription = JsVal.str "Details unavailable") := by
  obtain ⟨label, htop, hlabel⟩ := topCropOf_of_wellShaped data hs
  obtain ⟨info, hinfo⟩ := Option.isSome_iff_exists.mp (cropInfoFor_isSome db label hn)
  obtain ⟨alts, halts⟩ := Option.isSome_iff_exists.mp
    (shown_isSome db data (toLowerCase label) hs hn)
  refine ⟨⟨label, info, memberOf info "icon", memberOf info "name", memberOf info "desc",
    displaySoilAnalysis inputs, alts⟩, label, ?_, hlabel, rfl, hinfo, rfl, rfl, ?_⟩
  · simp only [displayResults, htop, hinfo, halts]
  · intro hunknown hchain
    have hl : label = "unknown" := by
      rw [hlabel] at hunknown
      exact JsVal.str.inj hunknown
    subst hl
    have hu : JsVal.undefined.truthy = false := rfl
    have hplace : info = placeholderEntry "unknown" := by
      have h := hinfo
      simp only [cropInfoFor, hchain, hu, Bool.false_eq_true, if_false, Option.some.injEq] at h
      exact h.symm
    subst hplace
    exact ⟨rfl, rfl⟩

/-- Witness for the amended C14: three ranked recommendations, and a response
without any label. -/
theorem displayResults_shows_label_witness :
    (∃ view label, displayResults grainDatabase rankedResponse riceInputs = some view
      ∧ labelBySpec rankedResponse = JsVal.str label
      ∧ view.topCrop = label
      ∧ cropInfoFor grainDatabase label = some view.cropInfo
      ∧ view.recommendedCrop = memberOf view.cropInfo "name"
      ∧ view.cropDescription = memberOf view.cropInfo "desc"
      ∧ (labelBySpec rankedResponse = JsVal.str "unknown" →
          lookupChain grainDatabase "unknown" = some JsVal.undefined →
          view.recommendedCrop = JsVal.str "unknown"
          ∧ view.cropDescription = JsVal.str "Details unavailable"))
    ∧ (∃ view, displayResults grainDatabase blankResponse riceInputs = some view
      ∧ view.recommendedCrop = JsVal.str "unknown"
      ∧ view.cropDescription = JsVal.str "Details unavailable") :=
  ⟨displayResults_shows_label grainDatabase rankedResponse riceInputs (by rfl) (by decide),
   by
    obtain ⟨view, label, h1, -, -, -, -, -, h7⟩ :=
      displayResults_shows_label grainDatabase blankResponse riceInputs (by rfl) (by decide)
    exact ⟨view, h1, h7 (by rfl) (by rfl)⟩⟩


/-! ## The CSV export -/

theorem PricePage.handleExport_eq_none_iff (text : JsVal → String) (chartData : ChartData) :
    PricePage.handleExport text chartData = none ↔ chartData.labels = [] := by
  unfold PricePage.handleExport
  constructor
  · intro h
    split at h
    · rename_i hl
      exact List.length_eq_zero.mp hl
    · simp at h
  · intro h
    simp [h]

/-- C20, the code at the failing input: a series with the single price 0 is
kept as the historical track `[0]`, and the export writes the row
`2024-01-15,,`, its historical field empty although the value is there. -/
theorem PricePage.handleExport_drops_zero :
    (drawSeries "2025-01-01" 330 (SeriesFetch.body zeroPriceSeries) JsVal.undefined
        initialPage).chartData.labels = ["2024-01-15"]
    ∧ (drawSeries "2025-01-01" 330 (SeriesFetch.body zeroPriceSeries) JsVal.undefined
        initialPage).chartData.historical = [JsVal.num (JsNum.fin 0)]
    ∧ ∀ text : JsVal → String,
        PricePage.handleExport text
          (drawSeries "2025-01-01" 330 (SeriesFetch.body zeroPriceSeries) JsVal.undefined
            initialPage).chartData
          = some "Date,Historical Price,Predicted Price\n2024-01-15,," := by
  refine ⟨rfl, rfl, fun text => ?_⟩
  rfl


/-! ## Price statistics -/

/-- A list of fewer than two prices is left alone. -/
theorem calculateStatistics_of_short (prices : List ℚ) (h : prices.length < 2) :
    calculateStatistics prices = none := by
  unfold calculateStatistics
  rw [if_pos h]

/-- C21, as the code has it: for the two prices 0 and 0 the list is long enough
to be computed, the mean and the first-half average are both zero, so both
quotients they divide are `NaN`, and the constant series is shown with "High"
volatility and a "Stable" trend. -/
theorem calculateStatistics_divides_by_zero :
    2 ≤ List.length ([0, 0] : List ℚ) ∧
    meanPrice [0, 0] = 0 ∧ avgFirst [0, 0] = 0 ∧
    cvBelow (variancePrice [0, 0]) (meanPrice [0, 0]) 20 = false ∧
    trendPct [0, 0] = JsNum.nan ∧
    (calculateStatistics [0, 0]).map (fun stats => (stats.volatility, stats.trend))
      = some ("High", "➡️ Stable") := by
  have hm : meanPrice [0, 0] = 0 := by norm_num [meanPrice, sumPrices]
  have hv : variancePrice [0, 0] = 0 := by norm_num [variancePrice, hm]
  have ha : avgFirst [0, 0] = 0 := by norm_num [avgFirst, firstHalf, sumPrices]
  have hs : avgSecond [0, 0] = 0 := by norm_num [avgSecond, secondHalf, sumPrices]
  have ht : trendPct [0, 0] = JsNum.nan := by
    unfold trendPct
    rw [ha, hs]
    simp [JsNum.divFin, JsNum.mulPos]
  refine ⟨by decide, hm, ha, ?_, ht, ?_⟩
  · rw [hm, hv]
    simp [cvBelow]
  · unfold calculateStatistics
    rw [if_neg (by decide), ht, hm, hv]
    simp [cvBelow, JsNum.gt, JsNum.lt]

theorem climate_score_cases (oT aT oH aH oR aR : Prop)
    [Decidable oT] [Decidable aT] [Decidable oH] [Decidable aH] [Decidable oR] [Decidable aR]
    (hT : oT → aT) (hH : oH → aH) (hR : oR → aR) :
    (80 ≤ (if oT then 33 else if aT then 20 else 0) + (if oH then 33 else if aH then 20 else 0)
          + (if oR then 34 else if aR then 20 else 0)
        ↔ (aT ∧ aH ∧ aR) ∧ ((oT ∧ oH) ∨ (oT ∧ oR) ∨ (oH ∧ oR)))
    ∧ ((if oT then 33 else if aT then 20 else 0) + (if oH then 33 else if aH then 20 else 0)
          + (if oR then 34 else if aR then 20 else 0) < 40
        ↔ (¬ aT ∧ ¬ aH) ∨ (¬ aT ∧ ¬ aR) ∨ (¬ aH ∧ ¬ aR)) := by
  by_cases h1 : oT <;> by_cases h2 : aT <;> by_cases h3 : oH <;> by_cases h4 : aH
    <;> by_cases h5 : oR <;> by_cases h6 : aR
    <;> first
      | exact absurd (hT h1) h2
      | exact absurd (hH h3) h4
      | exact absurd (hR h5) h6
      | simp [h1, h2, h3, h4, h5, h6]

theorem analyzeClimate_eq (temp humidity rainfall : ℚ) :
    analyzeClimate temp humidity rainfall =
      if 80 ≤ (if 15 ≤ temp ∧ temp ≤ 35 then 33 else if 10 ≤ temp ∧ temp ≤ 40 then 20 else 0)
          + (if 40 ≤ humidity ∧ humidity ≤ 80 then 33
              else if 30 ≤ humidity ∧ humidity ≤ 90 then 20 else 0)
          + (if 50 ≤ rainfall ∧ rainfall ≤ 250 then 34
              else if 30 ≤ rainfall ∧ rainfall ≤ 300 then 20 else 0)
      then ⟨"Excellent", "Highly Suitable", "good"⟩
      else if 60 ≤ (if 15 ≤ temp ∧ temp ≤ 35 then 33
              else if 10 ≤ temp ∧ temp ≤ 40 then 20 else 0)
          + (if 40 ≤ humidity ∧ humidity ≤ 80 then 33
              else if 30 ≤ humidity ∧ humidity ≤ 90 then 20 else 0)
          + (if 50 ≤ rainfall ∧ rainfall ≤ 250 then 34
              else if 30 ≤ rainfall ∧ rainfall ≤ 300 then 20 else 0)
      then ⟨"Good", "Suitable", "good"⟩
      else if 40 ≤ (if 15 ≤ temp ∧ temp ≤ 35 then 33
              else if 10 ≤ temp ∧ temp ≤ 40 then 20 else 0)
          + (if 40 ≤ humidity ∧ humidity ≤ 80 then 33
              else if 30 ≤ humidity ∧ humidity ≤ 90 then 20 else 0)
          + (if 50 ≤ rainfall ∧ rainfall ≤ 250 then 34
              else if 30 ≤ rainfall ∧ rainfall ≤ 300 then 20 else 0)
      then ⟨"Fair", "Moderate", "moderate"⟩
      else ⟨"Challenging", "Difficult", "poor"⟩ := rfl

/-- C23: with the optimal bands temperature 15 to 35, humidity 40 to 80,
rainfall 50 to 250 and the acceptable bands temperature 10 to 40, humidity 30
to 90, rainfall 30 to 300, `analyzeClimate` returns "Excellent" with "Highly
Suitable" exactly when the three parameters are inside their acceptable bands
and at least two are inside their optimal bands, returns "Challenging" with
"Difficult" exactly when at least two parameters are outside their acceptable
bands, and returns "Good" or "Fair" on every other input. -/
theorem analyzeClimate_bands (temp humidity rainfall : ℚ) :
    (analyzeClimate temp humidity rainfall = ⟨"Excellent", "Highly Suitable", "good"⟩
      ↔ ((10 ≤ temp ∧ temp ≤ 40) ∧ (30 ≤ humidity ∧ humidity ≤ 90)
          ∧ (30 ≤ rainfall ∧ rainfall ≤ 300))
        ∧ (((15 ≤ temp ∧ temp ≤ 35) ∧ (40 ≤ humidity ∧ humidity ≤ 80))
          ∨ ((15 ≤ temp ∧ temp ≤ 35) ∧ (50 ≤ rainfall ∧ rainfall ≤ 250))
          ∨ ((40 ≤ humidity ∧ humidity ≤ 80) ∧ (50 ≤ rainfall ∧ rainfall ≤ 250))))
    ∧ (analyzeClimate temp humidity rainfall = ⟨"Challenging", "Difficult", "poor"⟩
      ↔ (¬ (10 ≤ temp ∧ temp ≤ 40) ∧ ¬ (30 ≤ humidity ∧ humidity ≤ 90))
        ∨ (¬ (10 ≤ temp ∧ temp ≤ 40) ∧ ¬ (30 ≤ rainfall ∧ rainfall ≤ 300))
        ∨ (¬ (30 ≤ humidity ∧ humidity ≤ 90) ∧ ¬ (30 ≤ rainfall ∧ rainfall ≤ 300)))
    ∧ (analyzeClimate temp humidity rainfall = ⟨"Excellent", "Highly Suitable", "good"⟩
      ∨ analyzeClimate temp humidity rainfall = ⟨"Challenging", "Difficult", "poor"⟩
      ∨ analyzeClimate temp humidity rainfall = ⟨"Good", "Suitable", "good"⟩
      ∨ analyzeClimate temp humidity rainfall = ⟨"Fair", "Moderate", "moderate"⟩) := by
  have hT : (15 ≤ temp ∧ temp ≤ 35) → (10 ≤ temp ∧ temp ≤ 40) :=
    fun h => ⟨le_trans (by norm_num) h.1, le_trans h.2 (by norm_num)⟩
  have hH : (40 ≤ humidity ∧ humidity ≤ 80) → (30 ≤ humidity ∧ humidity ≤ 90) :=
    fun h => ⟨le_trans (by norm_num) h.1, le_trans h.2 (by norm_num)⟩
  have hR : (50 ≤ rainfall ∧ rainfall ≤ 250) → (30 ≤ rainfall ∧ rainfall ≤ 300) :=
    fun h => ⟨le_trans (by norm_num) h.1, le_trans h.2 (by norm_num)⟩
  obtain ⟨h80, h40⟩ := climate_score_cases _ _ _ _ _ _ hT hH hR
  rw [analyzeClimate_eq]
  rw [← h80, ← h40]
  generalize (if 15 ≤ temp ∧ temp ≤ 35 then 33 else if 10 ≤ temp ∧ temp ≤ 40 then 20 else 0)
    + (if 40 ≤ humidity ∧ humidity ≤ 80 then 33
        else if 30 ≤ humidity ∧ humidity ≤ 90 then 20 else 0)
    + (if 50 ≤ rainfall ∧ rainfall ≤ 250 then 34
        else if 30 ≤ rainfall ∧ rainfall ≤ 300 then 20 else 0) = score
  by_cases a : 80 ≤ score
  · rw [if_pos a]
    exact ⟨⟨fun _ => a, fun _ => rfl⟩,
      ⟨fun e => absurd e (by decide), fun e => absurd a (by omega)⟩, Or.inl rfl⟩
  · rw [if_neg a]
    by_cases b : 60 ≤ score
    · rw [if_pos b]
      exact ⟨⟨fun e => absurd e (by decide), fun e => absurd e a⟩,
        ⟨fun e => absurd e (by decide), fun e => absurd b (by omega)⟩,
        Or.inr (Or.inr (Or.inl rfl))⟩
    · rw [if_neg b]
      by_cases c : 40 ≤ score
      · rw [if_pos c]
        exact ⟨⟨fun e => absurd e (by decide), fun e => absurd e a⟩,
          ⟨fun e => absurd e (by decide), fun e => absurd c (by omega)⟩,
          Or.inr (Or.inr (Or.inr rfl))⟩
      · rw [if_neg c]
        exact ⟨⟨fun e => absurd e (by decide), fun e => absurd e a⟩,
          ⟨fun _ => by omega, fun _ => rfl⟩, Or.inr (Or.inl rfl)⟩


/-! ## The ranked alternatives -/

/-- After the reconciliation with at least one predicted price, the last cell of
the historical track is the `null` that pads it. -/
theorem lastOf_historical_padded (labels : List String) (prices : List JsVal)
    (predictedDates : List String) (predictedPrices : List JsVal)
    (h : predictedPrices ≠ []) :
    lastOf (buildChartData labels prices predictedDates predictedPrices).historical
      = JsVal.null := by
  cases predictedPrices with
  | nil => exact absurd rfl h
  | cons p rest =>
    unfold lastOf buildChartData
    simp [List.replicate_succ', ← List.append_assoc]

/-- C25, as the code has it: for the two historical prices 100 and 110 and the
predicted price 90, a fall of more than 18 percent, the tracks reconciled by
`drawSeries` end in `null` and in 90, the change computed is `+Infinity`, and
the insight shown announces a significant price increase. -/
theorem generateInsights_reads_padding (other : JsVal → JsNum) :
    (drawSeries "2025-01-01" 330 (SeriesFetch.body evenSeries) (JsVal.num (JsNum.fin 90))
        initialPage).chartData.historical
      = [JsVal.num (JsNum.fin 100), JsVal.num (JsNum.fin 110), JsVal.null] ∧
    (drawSeries "2025-01-01" 330 (SeriesFetch.body evenSeries) (JsVal.num (JsNum.fin 90))
        initialPage).chartData.predicted
      = [JsVal.null, JsVal.null, JsVal.num (JsNum.fin 90)] ∧
    JsNum.divFin (90 - 110) 110 = JsNum.fin (-2 / 11) ∧
    priceChange other
      (drawSeries "2025-01-01" 330 (SeriesFetch.body evenSeries) (JsVal.num (JsNum.fin 90))
        initialPage).chartData = JsNum.posInf ∧
    PricePage.generateInsights other JsVal.undefined JsVal.undefined (JsNum.fin 12)
      (drawSeries "2025-01-01" 330 (SeriesFetch.body evenSeries) (JsVal.num (JsNum.fin 90))
        initialPage).chartData
      = ["📈 Significant price increase expected - good time to hold inventory.",
         "📅 Long-term forecast - monitor regularly for market changes."] := by
  have hcd : (drawSeries "2025-01-01" 330 (SeriesFetch.body evenSeries)
      (JsVal.num (JsNum.fin 90)) initialPage).chartData
      = { labels := ["2024-01-15", "2024-02-15", "2024-03-15"]
          historical := [JsVal.num (JsNum.fin 100), JsVal.num (JsNum.fin 110), JsVal.null]
          predicted := [JsVal.null, JsVal.null, JsVal.num (JsNum.fin 90)] } := by
    rfl
  have hchange : priceChange other
      { labels := ["2024-01-15", "2024-02-15", "2024-03-15"]
        historical := [JsVal.num (JsNum.fin 100), JsVal.num (JsNum.fin 110), JsVal.null]
        predicted := [JsVal.null, JsVal.null, JsVal.num (JsNum.fin 90)] } = JsNum.posInf := by
    simp [priceChange, lastOf, toNumber, JsNum.sub, JsNum.div, JsNum.divFin, JsNum.mulPos]
  rw [hcd]
  refine ⟨rfl, rfl, ?_, hchange, ?_⟩
  · norm_num [JsNum.divFin]
  · unfold PricePage.generateInsights
    rw [hchange]
    simp [JsVal.truthy, JsNum.gt, JsNum.ge]
    norm_num

/-! ## The fallback confidence -/

/-- The keys `generateAlternatives` lists: at most five, taken in order from the
keys of the database, none of them the key it was called with. -/
theorem alternative_keys (db : CropDatabase) (mainCrop : String) :
    (((db.map Prod.fst).filter (fun crop => decide (crop ≠ mainCrop))).take 5).length ≤ 5 ∧
    List.Sublist (((db.map Prod.fst).filter (fun crop => decide (crop ≠ mainCrop))).take 5)
      (db.map Prod.fst) ∧
    mainCrop ∉ ((db.map Prod.fst).filter (fun crop => decide (crop ≠ mainCrop))).take 5 := by
  refine ⟨List.length_take_le _ _, (List.take_sublist _ _).trans (List.filter_sublist _), ?_⟩
  intro h
  have h2 := List.of_mem_filter (List.mem_of_mem_take h)
  simp at h2

/-- C27, as the code has it: with a database filed under the keys "Rice" and
"Wheat" and a response without ranked alternatives that names "rice",
`displayResults` shows the entry "Rice" as the recommended crop and lists that
same entry first among the alternatives. -/
theorem generateAlternatives_lists_shown_crop :
    riceResponse.recommendations = none ∧
    ∃ view chips, displayResults capitalDatabase riceResponse riceInputs = some view ∧
      view.cropInfo = getProp capitalDatabase "Rice" ∧
      view.recommendedCrop = JsVal.str "Rice" ∧
      view.alternatives = some chips ∧
      chips.map (fun chip => chip.name) = [JsVal.str "Rice", JsVal.str "Wheat"] ∧
      mapThrowing (alternativeChip capitalDatabase) ["Rice", "Wheat"] = some chips :=
  ⟨rfl, _, _, rfl, rfl, rfl, rfl, rfl, rfl⟩

/-! ## The sign-up form -/

theorem SignupForm.handleSubmit_calls_of_valid (pg : AuthPage)
    (name email password confirm : String) (created updated : ProviderResult)
    (hidle : pg.isSubmitting = false)
    (hfields : name ≠ "" ∧ email ≠ "" ∧ password ≠ "" ∧ confirm ≠ "")
    (hsame : password = confirm) (hlen : 6 ≤ jsLength password) :
    ∃ rest, (SignupForm.handleSubmit pg name email password confirm created updated).calls
      = pg.calls ++ ProviderCall.createUserWithEmailAndPassword email password :: rest := by
  have h6 : ¬ (jsLength password < 6) := not_lt.mpr hlen
  have hmissing : ¬ (name = "" ∨ email = "" ∨ password = "" ∨ confirm = "") := by
    rintro (h | h | h | h)
    · exact hfields.1 h
    · exact hfields.2.1 h
    · exact hfields.2.2.1 h
    · exact hfields.2.2.2 h
  unfold SignupForm.handleSubmit
  rw [if_neg (by simp [hidle]), if_neg hmissing, if_neg (by simp [hsame]), if_neg h6]
  cases created with
  | rejected code => exact ⟨[], rfl⟩
  | resolved =>
    cases updated with
    | rejected code => exact ⟨[ProviderCall.updateProfile name], by simp⟩
    | resolved => exact ⟨[ProviderCall.updateProfile name], by simp⟩

theorem SignupForm.handleSubmit_of_invalid (pg : AuthPage)
    (name email password confirm : String) (created updated : ProviderResult)
    (h : ¬ (pg.isSubmitting = false ∧ (name ≠ "" ∧ email ≠ "" ∧ password ≠ "" ∧ confirm ≠ "")
      ∧ password = confirm ∧ 6 ≤ jsLength password)) :
    (SignupForm.handleSubmit pg name email password confirm created updated).calls = pg.calls := by
  unfold SignupForm.handleSubmit
  by_cases hs : pg.isSubmitting = true
  · rw [if_pos hs]
  · rw [if_neg hs]
    by_cases hm : name = "" ∨ email = "" ∨ password = "" ∨ confirm = ""
    · rw [if_pos hm]
    · rw [if_neg hm]
      by_cases he : password ≠ confirm
      · rw [if_pos he]
      · rw [if_neg he]
        by_cases hl : jsLength password < 6
        · rw [if_pos hl]
        · exfalso
          apply h
          refine ⟨by simpa using hs, ?_, by simpa using he, not_lt.mp hl⟩
          simp only [not_or] at hm
          exact ⟨hm.1, hm.2.1, hm.2.2.1, hm.2.2.2⟩

/-- C28, counterexample: while a submission is in progress the handler returns
at once; with the name left empty it makes no provider call and shows no
message, where the claim has it show "Please fill in all fields". -/
theorem signup_in_progress_shows_nothing :
    (SignupForm.handleSubmit { freshAuthPage with isSubmitting := true }
        "" "asha@example.org" "secret1" "secret1"
        ProviderResult.resolved ProviderResult.resolved).calls = []
    ∧ (SignupForm.handleSubmit { freshAuthPage with isSubmitting := true }
        "" "asha@example.org" "secret1" "secret1"
        ProviderResult.resolved ProviderResult.resolved).message = none
    ∧ (SignupForm.handleSubmit { freshAuthPage with isSubmitting := true }
        "" "asha@example.org" "secret1" "secret1"
        ProviderResult.resolved ProviderResult.resolved).message
        ≠ some ("Please fill in all fields", "error") := by
  refine ⟨?_, ?_, ?_⟩ <;> decide

/-- C28, amended: the sign-up handler asks the identity provider to create an
account exactly when no submission is in progress, the four fields are not
empty, the password equals the confirmation and the password has at least 6
characters (UTF-16 code units); otherwise it makes no provider call; while a
submission is in progress it changes nothing and shows no message; and when
none is in progress the message shown is that of the first failing check in the
order missing field, passwords do not match, password shorter than 6
characters. -/
theorem signup_validation (pg : AuthPage) (name email password confirm : String)
    (created updated : ProviderResult) :
    ((∃ rest, (SignupForm.handleSubmit pg name email password confirm created updated).calls
          = pg.calls ++ ProviderCall.createUserWithEmailAndPassword email password :: rest)
        ↔ (pg.isSubmitting = false ∧ (name ≠ "" ∧ email ≠ "" ∧ password ≠ "" ∧ confirm ≠ "")
            ∧ password = confirm ∧ 6 ≤ jsLength password))
    ∧ (¬ (pg.isSubmitting = false ∧ (name ≠ "" ∧ email ≠ "" ∧ password ≠ "" ∧ confirm ≠ "")
            ∧ password = confirm ∧ 6 ≤ jsLength password) →
        (SignupForm.handleSubmit pg name email password confirm created updated).calls
          = pg.calls)
    ∧ (pg.isSubmitting = true →
        SignupForm.handleSubmit pg name email password confirm created updated = pg)
    ∧ (pg.isSubmitting = false →
        ((name = "" ∨ email = "" ∨ password = "" ∨ confirm = "") →
          (SignupForm.handleSubmit pg name email password confirm created updated).message
            = some ("Please fill in all fields", "error"))
        ∧ (¬ (name = "" ∨ email = "" ∨ password = "" ∨ confirm = "") → password ≠ confirm →
          (SignupForm.handleSubmit pg name email password confirm created updated).message
            = some ("Passwords do not match", "error"))
        ∧ (¬ (name = "" ∨ email = "" ∨ password = "" ∨ confirm = "") → password = confirm →
          jsLength password < 6 →
          (SignupForm.handleSubmit pg name email password confirm created updated).message
            = some ("Password should be at least 6 characters", "error"))) := by
  refine ⟨⟨?_, ?_⟩, ?_, ?_, ?_⟩
  · rintro ⟨rest, hrest⟩
    by_contra hnot
    have hcalls := SignupForm.handleSubmit_of_invalid pg name email password confirm
      created updated hnot
    rw [hcalls] at hrest
    have hlen := congrArg List.length hrest
    simp at hlen
  · rintro ⟨hidle, hfields, hsame, hlen⟩
    exact SignupForm.handleSubmit_calls_of_valid pg name email password confirm created updated
      hidle hfields hsame hlen
  · exact SignupForm.handleSubmit_of_invalid pg name email password confirm created updated
  · intro hs
    unfold SignupForm.handleSubmit
    rw [if_pos hs]
  · intro hidle
    have hs : ¬ (pg.isSubmitting = true) := by simp [hidle]
    refine ⟨fun hm => ?_, fun hm he => ?_, fun hm he hl => ?_⟩
    · unfold SignupForm.handleSubmit
      rw [if_neg hs, if_pos hm]
    · unfold SignupForm.handleSubmit
      rw [if_neg hs, if_neg hm, if_pos he]
    · unfold SignupForm.handleSubmit
      rw [if_neg hs, if_neg hm, if_neg (by simp [he]), if_pos hl]

/-- Witness for the amended C28: on a fresh page a complete form reaches the
provider, a short password does not, and a form submitted while another is in
progress changes nothing. -/
theorem signup_validation_witness :
    (∃ rest, (SignupForm.handleSubmit freshAuthPage "Asha" "asha@example.org" "secret1"
        "secret1" ProviderResult.resolved ProviderResult.resolved).calls
        = freshAuthPage.calls
          ++ ProviderCall.createUserWithEmailAndPassword "asha@example.org" "secret1" :: rest)
    ∧ (SignupForm.handleSubmit freshAuthPage "Asha" "asha@example.org" "abc" "abc"
        ProviderResult.resolved ProviderResult.resolved).calls = freshAuthPage.calls
    ∧ SignupForm.handleSubmit { freshAuthPage with isSubmitting := true } "Asha"
        "asha@example.org" "secret1" "secret1" ProviderResult.resolved ProviderResult.resolved
        = { freshAuthPage with isSubmitting := true }
    ∧ (SignupForm.handleSubmit freshAuthPage "Asha" "asha@example.org" "abc" "abc"
        ProviderResult.resolved ProviderResult.resolved).message
        = some ("Password should be at least 6 characters", "error") :=
  ⟨(signup_validation freshAuthPage "Asha" "asha@example.org" "secret1" "secret1"
      ProviderResult.resolved ProviderResult.resolved).1.2 (by decide),
   (signup_validation freshAuthPage "Asha" "asha@example.org" "abc" "abc"
      ProviderResult.resolved ProviderResult.resolved).2.1 (by decide),
   (signup_validation { freshAuthPage with isSubmitting := true } "Asha" "asha@example.org"
      "secret1" "secret1" ProviderResult.resolved ProviderResult.resolved).2.2.1 (by rfl),
   ((signup_validation freshAuthPage "Asha" "asha@example.org" "abc" "abc"
      ProviderResult.resolved ProviderResult.resolved).2.2.2 (by rfl)).2.2 (by decide) (by rfl)
      (by decide)⟩

end FutureCrop
